import Mathlib

/-!
Verification of the ArbovirusFramework data-preparation pipeline.

This file gives a shallow embedding, in Lean 4, of the parts of the
repository that the specification talks about:

* `core.py` — the `ArbovirusDataFrame` wrapper (a pandas `DataFrame`
  behind a handle with copy-on-construction and copy-on-read semantics);
* `transformations.py` — the column transforms (missing-value handling,
  deduplication, renaming, rolling aggregates, case shifting, season
  labelling);
* `ingestion.py` — the exception handling of the epidemiological reader;
* `combination.py` — the climate/cases date join;
* `exceptions.py` — the exception class hierarchy and its exported names.

Modelling conventions, stated once here:

* A pandas `DataFrame` is a `PyDF`: a header of column names, a list of
  integer row labels (the pandas index), and a list of rows of `Cell`s.
* A cell is a rational number, a string, a calendar date, or the missing
  value (`Cell.null` stands for each of NaN / NaT / None).
* `datetime64` values are calendar dates; pandas stores them as integers,
  which `toRataDie` reproduces (days since 1970-01-01, civil calendar).
* Python exceptions become the `PyErr` inductive.  A `ColumnNotFoundError`
  carries the list of column names that the raise site interpolates into
  its message, so "the message lists the columns" is modelled as list
  membership; other errors carry their message text (apostrophes are
  dropped from message literals).
* Fallible Python functions become `Except PyErr`.
-/

/-- Calendar date, as the year / month / day triple a Python `datetime`
carries. -/
structure PyDate where
  year : Int
  month : Int
  day : Int
deriving DecidableEq

/-- Scalar value held by one cell of a pandas `DataFrame`.  `null` stands
for NaN / NaT / None alike, which is how `pd.isna` treats them. -/
inductive Cell where
  | num (q : ℚ)
  | str (s : String)
  | date (d : PyDate)
  | null
deriving DecidableEq

/-- Python exception values raised by the framework, with the data their
messages interpolate. -/
inductive PyErr where
  | columnNotFound (names : List String)
  | valueError (msg : String)
  | typeError (msg : String)
  | keyError (name : String)
  | invalidTransformation (msg : String)
deriving DecidableEq

/-- Message text of an exception, as Python would render it inside an
f-string (structured errors render their payload). -/
def errText : PyErr → String
  | .columnNotFound names => String.intercalate ", " names
  | .valueError m => m
  | .typeError m => m
  | .keyError n => n
  | .invalidTransformation m => m

/-- Shallow embedding of a pandas `DataFrame`: column names, the integer
index (row labels), and the rows. -/
structure PyDF where
  header : List String
  index : List Int
  rows : List (List Cell)
deriving DecidableEq

/-- Well-formedness of a frame: one label per row and one cell per column
in every row.  The repository maintains this invariant throughout. -/
def PyDF.wf (df : PyDF) : Prop :=
  df.index.length = df.rows.length ∧ ∀ r ∈ df.rows, r.length = df.header.length

/-- Empty frame, used as the default value of total lookups. -/
def emptyDF : PyDF := ⟨[], [], []⟩

/-- Position of a column name in a header (pandas column lookup).  Returns
the list length when the name is absent. -/
def strIdx (name : String) : List String → Nat
  | [] => 0
  | s :: rest => if s = name then 0 else strIdx name rest + 1

/-- Cells of the named column, in row order (`df[name]` as a value
sequence; absent positions read as null). -/
def colCells (df : PyDF) (name : String) : List Cell :=
  df.rows.map (fun r => r.getD (strIdx name df.header) Cell.null)

/-- True when the cell is a number. -/
def isNumCell : Cell → Bool
  | .num _ => true
  | _ => false

/-- True when the cell is a date. -/
def isDateCell : Cell → Bool
  | .date _ => true
  | _ => false

/-- Numeric value of a cell, when it has one. -/
def cellNum : Cell → Option ℚ
  | .num q => some q
  | _ => none

/-- Numeric pandas dtype of a column, read off the values: every cell is
a number or missing, and at least one number is present.  (pandas keeps
dtype as metadata; for the frames of this pipeline the two agree.) -/
def numericDtypeCells (cells : List Cell) : Bool :=
  cells.all (fun c => isNumCell c || c == Cell.null) && cells.any isNumCell

/-- Datetime pandas dtype of a column, read off the values in the same
way as `numericDtypeCells`. -/
def datetimeDtypeCells (cells : List Cell) : Bool :=
  cells.all (fun c => isDateCell c || c == Cell.null) && cells.any isDateCell

/-- Numeric dtype test for a named column of a frame
(`pd.api.types.is_numeric_dtype`). -/
def numericDtype (df : PyDF) (name : String) : Bool :=
  numericDtypeCells (colCells df name)

/-- Datetime dtype test for a named column of a frame
(`pd.api.types.is_datetime64_any_dtype`). -/
def datetimeDtype (df : PyDF) (name : String) : Bool :=
  datetimeDtypeCells (colCells df name)

/-- Days since 1970-01-01 of a civil-calendar date (the integer pandas
stores for a `datetime64[ns]` value, in day units).  Standard
days-from-civil computation with floor division. -/
def toRataDie (dt : PyDate) : Int :=
  let y : Int := if dt.month ≤ 2 then dt.year - 1 else dt.year
  let era : Int := Int.fdiv y 400
  let yoe : Int := y - era * 400
  let mp : Int := Int.emod (dt.month + 9) 12
  let doy : Int := Int.fdiv (153 * mp + 2) 5 + dt.day - 1
  let doe : Int := yoe * 365 + Int.fdiv yoe 4 - Int.fdiv yoe 100 + doy
  era * 146097 + doe - 719468

/-- Month/day comparison used by the season boundaries: is (m1, d1)
strictly before (m2, d2) within one calendar year. -/
def mdBefore (m1 d1 m2 d2 : Int) : Bool :=
  m1 < m2 || (m1 == m2 && d1 < d2)

/-- Chronological non-strict order on dates (Python `datetime`
comparison), lexicographic on year, month, day. -/
def dateLe (a b : PyDate) : Bool :=
  a.year < b.year || (a.year == b.year &&
    (a.month < b.month || (a.month == b.month && a.day ≤ b.day)))

/-- Chronological strict order on dates (Python `datetime` comparison). -/
def dateLt (a b : PyDate) : Bool :=
  a.year < b.year || (a.year == b.year &&
    (a.month < b.month || (a.month == b.month && a.day < b.day)))

/-- Sort key of a cell when pandas sorts by a datetime column: the stored
integer; missing values (NaT) sort last (`na_position="last"`), modelled
by a sentinel beyond every date this pipeline can see. -/
def cellDateKey : Cell → Int
  | .date d => toRataDie d
  | _ => 1000000000

/-- Appends one cell to every row (column assignment under a fresh name);
pandas aligns a too-short value sequence with nulls and ignores the
excess of a too-long one. -/
def attachCol : List (List Cell) → List Cell → List (List Cell)
  | [], _ => []
  | r :: rs, [] => (r ++ [Cell.null]) :: attachCol rs []
  | r :: rs, c :: cs => (r ++ [c]) :: attachCol rs cs

/-- Replaces the cell at position `i` of every row (column assignment
over an existing name), with the same alignment rule. -/
def replaceCol (i : Nat) : List (List Cell) → List Cell → List (List Cell)
  | [], _ => []
  | r :: rs, [] => r.set i Cell.null :: replaceCol i rs []
  | r :: rs, c :: cs => r.set i c :: replaceCol i rs cs

/-- Column assignment `df[name] = cells`: replaces the column when the
name exists, else appends a new column. -/
def setColumn (df : PyDF) (name : String) (cells : List Cell) : PyDF :=
  if df.header.contains name then
    { df with rows := replaceCol (strIdx name df.header) df.rows cells }
  else
    { header := df.header ++ [name], index := df.index,
      rows := attachCol df.rows cells }

/-- Applies a cell function to one existing column of a frame
(`df[name] = df[name].apply(f)`-style in-place column update). -/
def mapColumnAt (df : PyDF) (name : String) (f : Cell → Cell) : PyDF :=
  setColumn df name ((colCells df name).map f)

/-!
Exception classes and module imports (`exceptions.py`, and the Python
built-in classes the code interacts with).
-/

/-- Python exception classes relevant to the framework: the built-in
chain `FileNotFoundError < OSError < Exception` and the classes declared
in `exceptions.py`. -/
inductive PyClass where
  | pyException
  | osError
  | builtinFileNotFoundError
  | arbovirusFrameworkError
  | frameworkFileNotFoundError
  | invalidFileFormatError
  | invalidCSVError
  | columnNotFoundError
  | invalidTransformationError
deriving DecidableEq

/-- Ancestor chain (the class itself and its bases) of every class, read
off the `class X(Y)` declarations of `exceptions.py` and the Python
documentation for the built-ins. -/
def classAncestors : PyClass → List PyClass
  | .pyException => [.pyException]
  | .osError => [.osError, .pyException]
  | .builtinFileNotFoundError => [.builtinFileNotFoundError, .osError, .pyException]
  | .arbovirusFrameworkError => [.arbovirusFrameworkError, .pyException]
  | .frameworkFileNotFoundError =>
      [.frameworkFileNotFoundError, .arbovirusFrameworkError, .pyException]
  | .invalidFileFormatError =>
      [.invalidFileFormatError, .arbovirusFrameworkError, .pyException]
  | .invalidCSVError => [.invalidCSVError, .arbovirusFrameworkError, .pyException]
  | .columnNotFoundError => [.columnNotFoundError, .arbovirusFrameworkError, .pyException]
  | .invalidTransformationError =>
      [.invalidTransformationError, .arbovirusFrameworkError, .pyException]

/-- Python `except H:` clause matching: a raised instance of class `c` is
caught by a handler naming class `h` exactly when `h` is an ancestor of
`c`. -/
def pyCaughtBy (c h : PyClass) : Bool :=
  (classAncestors c).contains h

/-- Names bound by `exceptions.py` (its six `class` statements). -/
def exceptionsModuleNames : List String :=
  ["ArbovirusFrameworkError", "FileNotFoundError", "InvalidFileFormatError",
   "InvalidCSVError", "ColumnNotFoundError", "InvalidTransformationError"]

/-- Names `combination.py` line 7 imports from `.exceptions`. -/
def combinationImportNames : List String :=
  ["FileNotFoundError", "DataProcessingError", "ColumnNotFoundError",
   "InvalidTransformationError"]

/-- Names `ingestion.py` line 8 imports from `.exceptions`. -/
def ingestionImportNames : List String :=
  ["FileNotFoundError", "InvalidCSVError", "ColumnNotFoundError",
   "DataProcessingError"]

/-- Success of a `from .exceptions import a, b, ...` statement: every
imported name must be bound in the module, else Python raises
`ImportError`. -/
def importSucceeds (imports defns : List String) : Bool :=
  imports.all (fun n => defns.contains n)

/-- Outcome of `process_epidemiological_data` when its `try` body raises:
skip (the `except FileNotFoundError` branch prints and returns `None`),
re-raise as a processing error (the `except Exception` branch), or
propagate uncaught. -/
inductive EpiOutcome where
  | skipsReturningNone
  | raisesDataProcessingError
  | uncaught
deriving DecidableEq

/-- Handler dispatch of `process_epidemiological_data` (ingestion.py
lines 181-185): the first `except` names the `FileNotFoundError` class
imported from `.exceptions` — the framework class, which shadows the
built-in of the same name inside this module — and the second names
`Exception`. -/
def epiHandleRaised (raised : PyClass) : EpiOutcome :=
  if pyCaughtBy raised .frameworkFileNotFoundError then .skipsReturningNone
  else if pyCaughtBy raised .pyException then .raisesDataProcessingError
  else .uncaught

/-- Class of the exception `pd.read_csv` raises for an absent path: the
built-in `FileNotFoundError`. -/
def readCsvMissingFileRaises : PyClass := .builtinFileNotFoundError

/-- Behaviour of `process_epidemiological_data` on a city configuration
whose raw epidemiology file is absent on disk: `pd.read_csv` raises the
built-in `FileNotFoundError` and the handlers dispatch on it. -/
def processEpiMissingFileOutcome : EpiOutcome :=
  epiHandleRaised readCsvMissingFileRaises

/-!
Season identification (`transformations.py`, `identify_season` and
`add_season_column`).
-/

/-- Shallow embedding of `identify_season` (transformations.py lines
275-297).  The argument is `none` for a missing date (`pd.isna`); the
season boundaries are built in the year of the incoming date exactly as
the source builds `datetime(data.year, 3, 20)` and the three others. -/
def identify_season (data : Option PyDate) : Option String :=
  match data with
  | none => none
  | some d =>
    let outono_inicio : PyDate := ⟨d.year, 3, 20⟩
    let inverno_inicio : PyDate := ⟨d.year, 6, 21⟩
    let primavera_inicio : PyDate := ⟨d.year, 9, 22⟩
    let verao_inicio : PyDate := ⟨d.year, 12, 21⟩
    if dateLe verao_inicio d || dateLt d outono_inicio then some "Verão"
    else if dateLe outono_inicio d && dateLt d inverno_inicio then some "Outono"
    else if dateLe inverno_inicio d && dateLt d primavera_inicio then some "Inverno"
    else if dateLe primavera_inicio d && dateLt d verao_inicio then some "Primavera"
    else none

/-- Modelled from the spec: the four Southern-Hemisphere season labels by
month/day boundaries — Autumn from Mar 20, Winter from Jun 21, Spring
from Sep 22, Summer from Dec 21 wrapping into the next calendar year.
The labels are the Portuguese strings the code uses: Summer is "Verão",
Autumn "Outono", Winter "Inverno", Spring "Primavera". -/
def seasonSpec (m d : Int) : String :=
  if mdBefore m d 3 20 then "Verão"
  else if mdBefore m d 6 21 then "Outono"
  else if mdBefore m d 9 22 then "Inverno"
  else if mdBefore m d 12 21 then "Primavera"
  else "Verão"

/-!
Column transforms (`transformations.py` and the `ArbovirusDataFrame`
methods of `core.py`), as pure frame functions.  Each transform starts
from the defensive copy `get_dataframe()` hands out, so the frame value
it computes on is its own; the handle-level allocation discipline is
modelled separately below.
-/

/-- Python truthiness of the `columns` argument: `if columns:` is false
for `None` and for an empty list. -/
def truthyCols : Option (List String) → Bool
  | none => false
  | some cs => !cs.isEmpty

/-- Scalar `fillna`: replaces missing cells by the given value. -/
def fillnaScalar (v : Cell) (c : Cell) : Cell :=
  if c == Cell.null then v else c

/-- Mean of the non-missing numeric values of a column (pandas skips
NaN); `none` when there is nothing to average (the mean is NaN). -/
def meanCells (cells : List Cell) : Option ℚ :=
  let nums := cells.filterMap cellNum
  if nums.isEmpty then none else some (nums.sum / (nums.length : ℚ))

/-- Median of the non-missing numeric values (pandas: average of the two
middle order statistics). -/
def medianCells (cells : List Cell) : Option ℚ :=
  let nums := (cells.filterMap cellNum).insertionSort (· ≤ ·)
  if nums.isEmpty then none
  else some ((nums.getD ((nums.length - 1) / 2) 0 + nums.getD (nums.length / 2) 0) / 2)

/-- Ordering rank of the cell constructors, for sorting mode candidates
of mixed kinds. -/
def cellRank : Cell → Nat
  | .num _ => 0
  | .date _ => 1
  | .str _ => 2
  | .null => 3

/-- Value order on cells, as pandas sorts a mode result. -/
def cellLe (a b : Cell) : Bool :=
  match a, b with
  | .num x, .num y => x ≤ y
  | .date x, .date y => dateLe x y
  | .str x, .str y => x < y || x == y
  | _, _ => cellRank a ≤ cellRank b

/-- First element of `Series.mode()`: the smallest among the most
frequent non-missing values; `none` when the series has no non-missing
value (the mode set is empty). -/
def modeCells (cells : List Cell) : Option Cell :=
  let present := cells.filter (fun c => !(c == Cell.null))
  let cand := present.dedup
  let maxCount := (cand.map (fun c => present.count c)).foldr max 0
  match cand.filter (fun c => present.count c == maxCount) with
  | [] => none
  | m :: ms => some (ms.foldl (fun acc c => if cellLe c acc then c else acc) m)

/-- Limit check for forward/backward fill: at most `limit` consecutive
missing values are filled. -/
def limitOk : Option Nat → Nat → Bool
  | none, _ => true
  | some k, run => run < k

/-- Forward fill walk: `last` is the last non-missing value seen, `run`
the number of missing cells since it. -/
def ffillGo (limit : Option Nat) : Option Cell → Nat → List Cell → List Cell
  | _, _, [] => []
  | last, run, c :: cs =>
    if c == Cell.null then
      (match last with
       | some v => if limitOk limit run then v else Cell.null
       | none => Cell.null) :: ffillGo limit last (run + 1) cs
    else c :: ffillGo limit (some c) 0 cs

/-- Forward fill of a column (`fillna(method="ffill", limit=limit)`). -/
def ffillCells (limit : Option Nat) (cells : List Cell) : List Cell :=
  ffillGo limit none 0 cells

/-- Backward fill of a column, the mirror image of forward fill. -/
def bfillCells (limit : Option Nat) (cells : List Cell) : List Cell :=
  (ffillGo limit none 0 cells.reverse).reverse

/-- Message wrapper of the per-column `except Exception` clause of
`fill_missing_values` (transformations.py line 100). -/
def fillWrapMsg (col strategy msg : String) : String :=
  "Erro ao preencher valores ausentes na coluna " ++ col ++
    " com estratégia " ++ strategy ++ ": " ++ msg

/-- Body of one iteration of the fill loop (the `try` block of
transformations.py lines 79-98): dispatch on the strategy, raising
`ValueError` for a missing fill value and for an unsupported strategy. -/
def fillColumnBody (strategy : String) (value : Option Cell) (limit : Option Nat)
    (df : PyDF) (col : String) : Except PyErr PyDF :=
  if strategy = "mean" then
    .ok (if numericDtype df col then
      match meanCells (colCells df col) with
      | some m => mapColumnAt df col (fillnaScalar (Cell.num m))
      | none => df
    else df)
  else if strategy = "median" then
    .ok (if numericDtype df col then
      match medianCells (colCells df col) with
      | some m => mapColumnAt df col (fillnaScalar (Cell.num m))
      | none => df
    else df)
  else if strategy = "mode" then
    .ok (match modeCells (colCells df col) with
      | some m => mapColumnAt df col (fillnaScalar m)
      | none => df)
  else if strategy = "ffill" then
    .ok (setColumn df col (ffillCells limit (colCells df col)))
  else if strategy = "bfill" then
    .ok (setColumn df col (bfillCells limit (colCells df col)))
  else if strategy = "value" then
    match value with
    | none => .error (.valueError "Um valor deve ser fornecido quando a estratégia for value.")
    | some v => .ok (mapColumnAt df col (fillnaScalar v))
  else .error (.valueError ("Estratégia de preenchimento não suportada: " ++ strategy))

/-- One iteration of the fill loop with its `except Exception` wrapper:
any exception of the body is re-raised as `InvalidTransformationError`
naming the column and the strategy. -/
def fillColumnStep (strategy : String) (value : Option Cell) (limit : Option Nat)
    (df : PyDF) (col : String) : Except PyErr PyDF :=
  match fillColumnBody strategy value limit df col with
  | .ok d => .ok d
  | .error e => .error (.invalidTransformation (fillWrapMsg col strategy (errText e)))

/-- Default column set of `fill_missing_values` when the caller passes no
truthy `columns` argument (transformations.py lines 69-73): numeric
columns for mean/median, every column for the other supported
strategies, and the argument unchanged otherwise. -/
def fillDefaultColumns (df : PyDF) (strategy : String)
    (columns : Option (List String)) : Option (List String) :=
  if strategy = "mean" || strategy = "median" then
    some (df.header.filter (fun c => numericDtype df c))
  else if strategy = "mode" || strategy = "ffill" || strategy = "bfill"
      || strategy = "value" then
    some df.header
  else columns

/-- Shallow embedding of `fill_missing_values` (transformations.py lines
40-101).  The unused `method` parameter of the source is omitted.  When a
truthy `columns` argument is given, absent names raise
`ColumnNotFoundError` listing all of them; otherwise the column set is
resolved from the strategy; an empty resolved set returns the frame
unchanged before any strategy dispatch. -/
def fill_missing_values (df : PyDF) (strategy : String)
    (columns : Option (List String)) (value : Option Cell)
    (limit : Option Nat) : Except PyErr PyDF :=
  let resolved : Except PyErr (Option (List String)) :=
    if truthyCols columns then
      let cs := columns.getD []
      let missing := cs.filter (fun c => !df.header.contains c)
      if !missing.isEmpty then .error (.columnNotFound missing) else .ok columns
    else .ok (fillDefaultColumns df strategy columns)
  match resolved with
  | .error e => .error e
  | .ok cols =>
    if truthyCols cols then
      (cols.getD []).foldlM (fillColumnStep strategy value limit) df
    else .ok df

/-- Row test of `dropna`: is the row to be dropped, given the subset
column positions and the `how` mode. -/
def dropnaTest (hw : String) (idxs : List Nat) (r : List Cell) : Bool :=
  if hw = "all" then idxs.all (fun i => r.getD i Cell.null == Cell.null)
  else idxs.any (fun i => r.getD i Cell.null == Cell.null)

/-- Shallow embedding of `drop_missing_values` (transformations.py lines
9-38): validate the subset columns (listing every absent name), validate
`how`, then drop rows by the `dropna` rule, keeping the labels of the
surviving rows. -/
def drop_missing_values (df : PyDF) (columns : Option (List String))
    (hw : String) : Except PyErr PyDF :=
  if truthyCols columns &&
      !((columns.getD []).filter (fun c => !df.header.contains c)).isEmpty then
    .error (.columnNotFound ((columns.getD []).filter (fun c => !df.header.contains c)))
  else if hw ≠ "any" ∧ hw ≠ "all" then
    .error (.valueError "O argumento how deve ser any ou all.")
  else
    let subset := match columns with | none => df.header | some cs => cs
    let idxs := subset.map (fun c => strIdx c df.header)
    let z := (df.index.zip df.rows).filter (fun p => !dropnaTest hw idxs p.2)
    .ok ⟨df.header, z.map Prod.fst, z.map Prod.snd⟩

/-- Value of the `keep` argument of `drop_duplicates`: the two strings,
the literal `False`, or anything else (rejected). -/
inductive PyKeep where
  | kfirst
  | klast
  | kfalse
  | kother (s : String)
deriving DecidableEq

/-- Keeps the first row of every key, walking left to right with the set
of keys already kept. -/
def dedupFirstBy (keyOf : List Cell → List Cell) (seen : List (List Cell)) :
    List (Int × List Cell) → List (Int × List Cell)
  | [] => []
  | p :: ps =>
    if seen.contains (keyOf p.2) then dedupFirstBy keyOf seen ps
    else p :: dedupFirstBy keyOf (keyOf p.2 :: seen) ps

/-- Shallow embedding of `drop_duplicates` (transformations.py lines
103-131): validate the subset (listing every absent name), validate
`keep`, then deduplicate rows on the subset key. -/
def drop_duplicates (df : PyDF) (subset : Option (List String))
    (keep : PyKeep) : Except PyErr PyDF :=
  if truthyCols subset &&
      !((subset.getD []).filter (fun c => !df.header.contains c)).isEmpty then
    .error (.columnNotFound ((subset.getD []).filter (fun c => !df.header.contains c)))
  else
    match keep with
    | .kother _ => .error (.valueError "O argumento keep deve ser first, last ou False.")
    | _ =>
      let cols := match subset with | none => df.header | some cs => cs
      let idxs := cols.map (fun c => strIdx c df.header)
      let keyOf := fun (r : List Cell) => idxs.map (fun i => r.getD i Cell.null)
      let z := df.index.zip df.rows
      let z2 := match keep with
        | .kfirst => dedupFirstBy keyOf [] z
        | .klast => (dedupFirstBy keyOf [] z.reverse).reverse
        | _ => z.filter (fun p =>
            (z.map (fun q : Int × List Cell => keyOf q.2)).count (keyOf p.2) == 1)
      .ok ⟨df.header, z2.map Prod.fst, z2.map Prod.snd⟩

/-- Shallow embedding of `apply_function_to_column` (transformations.py
lines 133-157): the element function may raise (its message is the
`String` error), and any such failure is wrapped as
`InvalidTransformationError` naming the column. -/
def apply_function_to_column (df : PyDF) (column : String)
    (f : Cell → Except String Cell) : Except PyErr PyDF :=
  if !df.header.contains column then .error (.columnNotFound [column])
  else
    match (colCells df column).mapM f with
    | .ok cells => .ok (setColumn df column cells)
    | .error e =>
      .error (.invalidTransformation ("Erro ao aplicar função na coluna " ++ column ++ ": " ++ e))

/-- Result of the row function handed to `create_new_column`: a pandas
Series of cells, or some other Python object (rejected with a
`TypeError` inside the `try`). -/
inductive PyFuncResult where
  | series (cells : List Cell)
  | notSeries
deriving DecidableEq

/-- Shallow embedding of `create_new_column` (transformations.py lines
159-189): an existing name is a plain `ValueError` (raised before the
`try`); a `KeyError` from the function surfaces as `ColumnNotFoundError`
naming the key; any other failure, including a non-Series return, is
wrapped as `InvalidTransformationError`. -/
def create_new_column (df : PyDF) (new_column_name : String)
    (f : PyDF → Except PyErr PyFuncResult) : Except PyErr PyDF :=
  if df.header.contains new_column_name then
    .error (.valueError ("A coluna " ++ new_column_name ++
      " já existe. Escolha outro nome ou use apply_function_to_column para modificar."))
  else
    match f df with
    | .ok (.series cells) => .ok (setColumn df new_column_name cells)
    | .ok .notSeries =>
      .error (.invalidTransformation ("Erro ao criar a nova coluna " ++ new_column_name ++
        ": A função para criar a nova coluna deve retornar uma pandas.Series."))
    | .error (.keyError k) => .error (.columnNotFound [k])
    | .error e =>
      .error (.invalidTransformation ("Erro ao criar a nova coluna " ++ new_column_name ++
        ": " ++ errText e))

/-- Shallow embedding of `rename_columns` (transformations.py lines
191-215): every mapping key absent from the header is listed in one
`ColumnNotFoundError`; otherwise the header is renamed through the
mapping. -/
def rename_columns (df : PyDF) (column_mapping : List (String × String)) :
    Except PyErr PyDF :=
  let missing := (column_mapping.map Prod.fst).filter (fun n => !df.header.contains n)
  if !missing.isEmpty then .error (.columnNotFound missing)
  else .ok { df with header := df.header.map (fun s =>
    match column_mapping.lookup s with | some t => t | none => s) }

/-- Trailing window of width `w` ending at position `i` of a column: the
last `min (i+1) w` of the first `i+1` cells. -/
def rollingWindowSlice (w : Nat) (v : List Cell) (i : Nat) : List Cell :=
  (v.take (i + 1)).drop (i + 1 - w)

/-- Rolling mean with `min_periods=1` (pandas skips missing values inside
the window and yields NaN only when the window holds none). -/
def rollingMeanCells (w : Nat) (v : List Cell) : List Cell :=
  (List.range v.length).map (fun i =>
    let win := (rollingWindowSlice w v i).filterMap cellNum
    if win.isEmpty then Cell.null else Cell.num (win.sum / (win.length : ℚ)))

/-- Rolling sum with `min_periods=1`, same window rule as the mean. -/
def rollingSumCells (w : Nat) (v : List Cell) : List Cell :=
  (List.range v.length).map (fun i =>
    let win := (rollingWindowSlice w v i).filterMap cellNum
    if win.isEmpty then Cell.null else Cell.num win.sum)

/-- Shallow embedding of `calculate_rolling_mean` (transformations.py
lines 217-227).  A non-numeric column makes pandas `rolling(...).mean()`
raise, which the source wraps as `InvalidTransformationError`. -/
def calculate_rolling_mean (df : PyDF) (column : String) (window : Nat)
    (new_column_suffix : String) : Except PyErr PyDF :=
  if !df.header.contains column then .error (.columnNotFound [column])
  else if !numericDtype df column then
    .error (.invalidTransformation ("Erro ao calcular média móvel para coluna " ++ column))
  else
    .ok (setColumn df (column ++ new_column_suffix ++ "_" ++ toString window ++ "d")
      (rollingMeanCells window (colCells df column)))

/-- Shallow embedding of `calculate_rolling_sum` (transformations.py
lines 229-239), the sum analogue of the rolling mean. -/
def calculate_rolling_sum (df : PyDF) (column : String) (window : Nat)
    (new_column_suffix : String) : Except PyErr PyDF :=
  if !df.header.contains column then .error (.columnNotFound [column])
  else if !numericDtype df column then
    .error (.invalidTransformation ("Erro ao calcular soma móvel para coluna " ++ column))
  else
    .ok (setColumn df (column ++ new_column_suffix ++ "_" ++ toString window ++ "d")
      (rollingSumCells window (colCells df column)))

/-- Stable sort of labelled rows by the date cell at position `jD`
(`sort_values` by a datetime column; order of ties is not observed by any
property below). -/
def sortByDateIdx (jD : Nat) (z : List (Int × List Cell)) : List (Int × List Cell) :=
  z.insertionSort (fun a b =>
    cellDateKey (a.2.getD jD Cell.null) ≤ cellDateKey (b.2.getD jD Cell.null))

/-- Shallow embedding of `shift_cases` (transformations.py lines
241-273).  After the three validations the source sorts a working copy by
date, sets the date column as index, shifts with `freq="D"` — which
relabels the index by minus `days` days and keeps the values in place —
then `reset_index(drop=True)` discards those relabelled dates and the
assignment back into `df_sorted` aligns the positional series with the
sorted frame labels; finally the missing results are back-filled from
the unshifted column. -/
def shift_cases (df : PyDF) (date_column cases_column : String) (days : Int) :
    Except PyErr PyDF :=
  if !df.header.contains date_column then
    .error (.columnNotFound [date_column])
  else if !df.header.contains cases_column then
    .error (.columnNotFound [cases_column])
  else if !datetimeDtype df date_column then
    .error (.invalidTransformation ("A coluna " ++ date_column ++
      " deve ser do tipo datetime para adiantar casos."))
  else
    let jD := strIdx date_column df.header
    let jC := strIdx cases_column df.header
    let sorted := sortByDateIdx jD (df.index.zip df.rows)
    let sIndex := sorted.map Prod.fst
    let sRows := sorted.map Prod.snd
    let _shiftedDates := sRows.map (fun r => cellDateKey (r.getD jD Cell.null) - days)
    let series := sRows.map (fun r => r.getD jC Cell.null)
    let assigned := sIndex.map (fun lab =>
      if 0 ≤ lab ∧ lab < (series.length : Int) then series.getD lab.toNat Cell.null
      else Cell.null)
    let filled := (assigned.zip sRows).map (fun p =>
      if p.1 == Cell.null then p.2.getD jC Cell.null else p.1)
    let new_column_name :=
      if days == 0 then cases_column
      else cases_column ++ "_" ++ toString days.natAbs ++ "dias"
    .ok (setColumn ⟨df.header, sIndex, sRows⟩ new_column_name filled)

/-- Season label cell of one date cell, through `identify_season`. -/
def seasonCell : Cell → Cell
  | .date d =>
    match identify_season (some d) with
    | some s => Cell.str s
    | none => Cell.null
  | _ => Cell.null

/-- Shallow embedding of `add_season_column` (transformations.py lines
299-315): validate the date column and its dtype, then map
`identify_season` over it into the new column named estacao. -/
def add_season_column (df : PyDF) (date_column : String) : Except PyErr PyDF :=
  if !df.header.contains date_column then
    .error (.columnNotFound [date_column])
  else if !datetimeDtype df date_column then
    .error (.invalidTransformation ("A coluna " ++ date_column ++
      " deve ser do tipo datetime para identificar a estação."))
  else .ok (setColumn df "estacao" ((colCells df date_column).map seasonCell))

/-- Shallow embedding of the `select_columns` method (core.py lines
126-142): every absent requested name is listed in one
`ColumnNotFoundError`. -/
def select_columns (df : PyDF) (columns : List String) : Except PyErr PyDF :=
  let missing := columns.filter (fun c => !df.header.contains c)
  if !missing.isEmpty then .error (.columnNotFound missing)
  else .ok ⟨columns, df.index,
    df.rows.map (fun r => columns.map (fun c => r.getD (strIdx c df.header) Cell.null))⟩

/-- Shallow embedding of the `filter_rows` method (core.py lines
144-162): the predicate returns a boolean mask over the rows; a
`KeyError` from it surfaces as `ColumnNotFoundError`, any other failure
as `InvalidTransformationError`. -/
def filter_rows (df : PyDF) (condition : PyDF → Except PyErr (List Bool)) :
    Except PyErr PyDF :=
  match condition df with
  | .ok mask =>
    let z := ((df.index.zip df.rows).zip mask).filter (fun p => p.2)
    .ok ⟨df.header, z.map (fun p => p.1.1), z.map (fun p => p.1.2)⟩
  | .error (.keyError k) => .error (.columnNotFound [k])
  | .error e => .error (.invalidTransformation ("Erro ao aplicar filtro: " ++ errText e))

/-!
Combination stage (`combination.py`) and its rounding helper.
-/

/-- Rounds a rational to three decimal places (`Series.round(3)`; the
exact tie-breaking of pandas is never observed by the properties
below). -/
def round3 (q : ℚ) : ℚ := (round (q * 1000) : ℚ) / 1000

/-- Rounds a numeric cell, leaving every other kind of cell (and NaN)
unchanged. -/
def roundCell : Cell → Cell
  | .num q => .num (round3 q)
  | c => c

/-- Integer cast of a cell (`astype(int)`); the cast values of this
pipeline are non-negative counts, where floor agrees with Python
truncation. -/
def astypeIntCell : Cell → Cell
  | .num q => .num ((Int.floor q : Int) : ℚ)
  | c => c

/-- Numeric-dtype flag of every column position of a frame
(`select_dtypes(include=["number"])`). -/
def numericFlags (df : PyDF) : List Bool :=
  (List.range df.header.length).map (fun i =>
    numericDtypeCells (df.rows.map (fun r => r.getD i Cell.null)))

/-- Rounds the cells of one row at the flagged positions. -/
def roundRow : List Bool → List Cell → List Cell
  | _, [] => []
  | [], r => r
  | b :: bs, c :: cs => (if b then roundCell c else c) :: roundRow bs cs

/-- Rounds every numeric column of a frame to three decimals (the loop
of combination.py lines 85-88). -/
def roundNumericCols (df : PyDF) : PyDF :=
  { df with rows := df.rows.map (roundRow (numericFlags df)) }

/-- Coercion of one cell by `pd.to_datetime(..., errors="coerce")`:
dates pass through, everything else becomes NaT.  (String dates reaching
this stage of the pipeline are already parsed; unparseable scalars are
what the coercion is for.) -/
def coerceDatetimeCell : Cell → Cell
  | .date d => .date d
  | _ => .null

/-- Right-hand side of the merge (combination.py lines 60-64): the rows
of the coerced cases frame whose municipality cell equals the configured
name, projected to their (date, case-count) cells. -/
def mergeRightPairs (cases : PyDF) (municipio : String) : List (Cell × Cell) :=
  let jT := strIdx "dt_notific" cases.header
  let jM := strIdx "mun" cases.header
  let jQ := strIdx "quantidade_de_casos" cases.header
  (cases.rows.filter (fun r => r.getD jM Cell.null == Cell.str municipio)).map
    (fun r => (r.getD jT Cell.null, r.getD jQ Cell.null))

/-- Case count attached to a climate row by the left merge: the count of
the matching case row, or missing when no case row carries the date. -/
def qLookup (right : List (Cell × Cell)) (k : Cell) : Cell :=
  match right.filter (fun p => p.1 == k) with
  | [] => Cell.null
  | p :: _ => p.2

/-- Rows of `pd.merge(left, right, on=key, how="left")` with a
single-column right payload: every left row joined with each matching
right row, or padded with one missing cell when no right row matches. -/
def leftMergeRows (jD : Nat) (left : List (List Cell)) (right : List (Cell × Cell)) :
    List (List Cell) :=
  left.flatMap (fun r =>
    match right.filter (fun p => p.1 == r.getD jD Cell.null) with
    | [] => [r ++ [Cell.null]]
    | ms => ms.map (fun p => r ++ [p.2]))

/-- Shallow embedding of the `try` body of
`combine_climate_and_epidemiological_data` (combination.py lines 42-93,
without the prints and the CSV write): date-column checks, datetime
coercion on both sides, rename of the climate date column, defensive
municipality filter, left merge on the date, zero fill and integer cast
of the case count, date sort, the three shifted-case columns, the season
column, and the numeric rounding. -/
def combineTry (climate cases : PyDF) (municipio : String) : Except PyErr PyDF :=
  if !cases.header.contains "dt_notific" then
    .error (.columnNotFound ["dt_notific"])
  else if !climate.header.contains "date" then
    .error (.columnNotFound ["date"])
  else
    let casesC := mapColumnAt cases "dt_notific" coerceDatetimeCell
    let climateC := mapColumnAt climate "date" coerceDatetimeCell
    let climateR : PyDF := { climateC with
      header := climateC.header.map (fun s => if s = "date" then "dt_notific" else s) }
    if !casesC.header.contains "mun" then .error (.keyError "mun")
    else if !casesC.header.contains "quantidade_de_casos" then
      .error (.keyError "quantidade_de_casos")
    else
      let right := mergeRightPairs casesC municipio
      let jD := strIdx "dt_notific" climateR.header
      let mergedRows := leftMergeRows jD climateR.rows right
      let merged : PyDF :=
        ⟨climateR.header ++ ["quantidade_de_casos"],
         (List.range mergedRows.length).map Int.ofNat, mergedRows⟩
      let filled := mapColumnAt merged "quantidade_de_casos"
        (fun c => astypeIntCell (fillnaScalar (Cell.num 0) c))
      let zs := sortByDateIdx jD (filled.index.zip filled.rows)
      let sortedDF : PyDF := ⟨filled.header, zs.map Prod.fst, zs.map Prod.snd⟩
      match shift_cases sortedDF "dt_notific" "quantidade_de_casos" 7 with
      | .error e => .error e
      | .ok s7 =>
        match shift_cases s7 "dt_notific" "quantidade_de_casos" 14 with
        | .error e => .error e
        | .ok s14 =>
          match shift_cases s14 "dt_notific" "quantidade_de_casos" 21 with
          | .error e => .error e
          | .ok s21 =>
            match add_season_column s21 "dt_notific" with
            | .error e => .error e
            | .ok se => .ok (roundNumericCols se)

/-!
Handle-level model of `ArbovirusDataFrame` (core.py).  A handle is an
index into a store of frames.  `get_dataframe()` (line 186) allocates a
fresh copy of the frame for the transform body to work on; the body
mutates only that local copy; the constructor (line 16) copies the
result into a further fresh frame that the new handle owns.  Exceptions
propagate, abandoning the local copy.
-/

/-- Runs one transform body against the frame held by handle `h`,
following the copy discipline of `get_dataframe` and `__init__`. -/
def runTransform (f : PyDF → Except PyErr PyDF) (h : Nat) (σ : List PyDF) :
    Except PyErr Nat × List PyDF :=
  let r1 := σ.length
  let σ1 := σ ++ [σ.getD h emptyDF]
  match f (σ1.getD r1 emptyDF) with
  | .error e => (.error e, σ1)
  | .ok d =>
    let σ2 := σ1.set r1 d
    (.ok σ2.length, σ2 ++ [σ2.getD r1 emptyDF])

/-- Handle-level `select_columns`. -/
def select_columnsH (columns : List String) (h : Nat) (σ : List PyDF) :=
  runTransform (fun df => select_columns df columns) h σ

/-- Handle-level `filter_rows`. -/
def filter_rowsH (condition : PyDF → Except PyErr (List Bool)) (h : Nat) (σ : List PyDF) :=
  runTransform (fun df => filter_rows df condition) h σ

/-- Handle-level `drop_missing_values`. -/
def drop_missing_valuesH (columns : Option (List String)) (hw : String)
    (h : Nat) (σ : List PyDF) :=
  runTransform (fun df => drop_missing_values df columns hw) h σ

/-- Handle-level `fill_missing_values`. -/
def fill_missing_valuesH (strategy : String) (columns : Option (List String))
    (value : Option Cell) (limit : Option Nat) (h : Nat) (σ : List PyDF) :=
  runTransform (fun df => fill_missing_values df strategy columns value limit) h σ

/-- Handle-level `drop_duplicates`. -/
def drop_duplicatesH (subset : Option (List String)) (keep : PyKeep)
    (h : Nat) (σ : List PyDF) :=
  runTransform (fun df => drop_duplicates df subset keep) h σ

/-- Handle-level `apply_function_to_column`. -/
def apply_function_to_columnH (column : String) (f : Cell → Except String Cell)
    (h : Nat) (σ : List PyDF) :=
  runTransform (fun df => apply_function_to_column df column f) h σ

/-- Handle-level `create_new_column`. -/
def create_new_columnH (name : String) (f : PyDF → Except PyErr PyFuncResult)
    (h : Nat) (σ : List PyDF) :=
  runTransform (fun df => create_new_column df name f) h σ

/-- Handle-level `rename_columns`. -/
def rename_columnsH (mapping : List (String × String)) (h : Nat) (σ : List PyDF) :=
  runTransform (fun df => rename_columns df mapping) h σ

/-- Handle-level `calculate_rolling_mean`. -/
def calculate_rolling_meanH (column : String) (window : Nat) (sfx : String)
    (h : Nat) (σ : List PyDF) :=
  runTransform (fun df => calculate_rolling_mean df column window sfx) h σ

/-- Handle-level `calculate_rolling_sum`. -/
def calculate_rolling_sumH (column : String) (window : Nat) (sfx : String)
    (h : Nat) (σ : List PyDF) :=
  runTransform (fun df => calculate_rolling_sum df column window sfx) h σ

/-- Handle-level `shift_cases`. -/
def shift_casesH (date_column cases_column : String) (days : Int)
    (h : Nat) (σ : List PyDF) :=
  runTransform (fun df => shift_cases df date_column cases_column days) h σ

/-- Handle-level `add_season_column`. -/
def add_season_columnH (date_column : String) (h : Nat) (σ : List PyDF) :=
  runTransform (fun df => add_season_column df date_column) h σ

/-- Preservation contract of one handle-level transform run: the frame
held by the input handle is unchanged in the output store, and a
successful run returns a different handle. -/
def transformKeeps (out : Except PyErr Nat × List PyDF) (h : Nat) (σ : List PyDF) : Prop :=
  out.2.getD h emptyDF = σ.getD h emptyDF ∧ ∀ r, out.1 = .ok r → r ≠ h

/-!
Specification-side definition for the shift claim.
-/

/-- Modelled from the spec: the shifted-cases column it describes —
sort by date ascending, then the value at date D becomes the value
originally at date D plus `days` calendar days, aligned by calendar date
so gaps are respected, and rows whose shifted value is undefined receive
their own un-shifted value. -/
def shiftCasesSpecCol (df : PyDF) (date_column cases_column : String) (days : Int) :
    List Cell :=
  let jD := strIdx date_column df.header
  let jC := strIdx cases_column df.header
  let sRows := (sortByDateIdx jD (df.index.zip df.rows)).map Prod.snd
  sRows.map (fun r =>
    match sRows.find? (fun r2 =>
        cellDateKey (r2.getD jD Cell.null) == cellDateKey (r.getD jD Cell.null) + days) with
    | some r2 => r2.getD jC Cell.null
    | none => r.getD jC Cell.null)

/-!
Concrete frames used by counterexamples and witnesses.
-/

/-- Relation between the rows of a frame before and after one
column-appending stage: the new rows are the old rows in some order,
each extended by one cell. -/
def RowsExt (rows2 rows : List (List Cell)) : Prop :=
  ∃ pairs : List (List Cell × Cell),
    (pairs.map Prod.fst).Perm rows ∧ rows2 = pairs.map (fun p => p.1 ++ [p.2])

/-- Invariant carried through the feature stages of the combination:
the date column keeps its position, every row keeps its date cell and
its (possibly zero) case count, and the multiset of dates matches the
base table. -/
def StageInv (right : List (Cell × Cell)) (jD jQ : Nat)
    (base : List (List Cell)) (df : PyDF) : Prop :=
  strIdx "dt_notific" df.header = jD ∧
  jD < df.header.length ∧
  "dt_notific" ∈ df.header ∧ "quantidade_de_casos" ∈ df.header ∧
  df.index.length = df.rows.length ∧
  df.rows.length = base.length ∧
  (∀ k : Cell, (df.rows.map (fun r => r.getD jD Cell.null)).count k =
    (base.map (fun r => r.getD jD Cell.null)).count k) ∧
  (∀ r ∈ df.rows, jQ < r.length ∧ isDateCell (r.getD jD Cell.null) = true ∧
    (right.filter (fun p => p.1 == r.getD jD Cell.null) = [] →
      r.getD jQ Cell.null = Cell.num 0))



/-- Three-row frame for the shift claim: dates 2023-01-01, 2023-01-02
and 2023-01-04 (a one-day calendar gap before the last row), case counts
10, 20, 40, already date-sorted with the default range index — exactly
the shape `combine_climate_and_epidemiological_data` feeds into
`shift_cases`. -/
def exdfC1 : PyDF :=
  ⟨["dt_notific", "quantidade_de_casos"], [0, 1, 2],
   [[Cell.date ⟨2023, 1, 1⟩, Cell.num 10],
    [Cell.date ⟨2023, 1, 2⟩, Cell.num 20],
    [Cell.date ⟨2023, 1, 4⟩, Cell.num 40]]⟩

/-- One-column frame whose header holds neither of the two column names
`shift_cases` is asked for. -/
def exdfC7 : PyDF := ⟨["a"], [0], [[Cell.num 1]]⟩

/-- One-column frame with a missing value, for the constant-fill
claims. -/
def exdfC8 : PyDF := ⟨["x"], [0], [[Cell.null]]⟩

/-- Store of one concrete frame, for the C9 witness. -/
def exStore : List PyDF := [exdfC1]

/-- Three-row climate frame for the C4 witness: dates 2023-01-01,
2023-01-02 and 2023-01-04 with one numeric feature. -/
def climdfC4 : PyDF :=
  ⟨["date", "temp"], [0, 1, 2],
   [[Cell.date ⟨2023, 1, 1⟩, Cell.num 5],
    [Cell.date ⟨2023, 1, 2⟩, Cell.num 6],
    [Cell.date ⟨2023, 1, 4⟩, Cell.num 7]]⟩

/-- One-row case frame for the C4 witness: three cases in municipality
X on 2023-01-02. -/
def casesdfC4 : PyDF :=
  ⟨["dt_notific", "mun", "quantidade_de_casos"], [0],
   [[Cell.date ⟨2023, 1, 2⟩, Cell.str "X", Cell.num 3]]⟩

instance {α β : Type} [DecidableEq α] [DecidableEq β] : DecidableEq (Except α β) :=
  fun a b =>
    match a, b with
    | .ok x, .ok y =>
      if h : x = y then isTrue (by rw [h]) else isFalse (fun hh => h (Except.ok.inj hh))
    | .error x, .error y =>
      if h : x = y then isTrue (by rw [h]) else isFalse (fun hh => h (Except.error.inj hh))
    | .ok _, .error _ => isFalse (fun hh => Except.noConfusion hh)
    | .error _, .ok _ => isFalse (fun hh => Except.noConfusion hh)

/-- True exactly when a transform result is a raised `ValueError`. -/
def isValueErrorRes : Except PyErr PyDF → Bool
  | .error (.valueError _) => true
  | _ => false

/-- New-column cells a `shift_cases` run produced, or `[]` on error. -/
def shiftResultCol (df : PyDF) (dc cc : String) (days : Int) : List Cell :=
  match shift_cases df dc cc days with
  | .ok out => colCells out (cc ++ "_" ++ toString days.natAbs ++ "dias")
  | .error _ => []

/-- C1: on the already-sorted range-indexed frame `exdfC1`, the code
leaves the new column equal to the un-shifted case column
([10, 20, 40]) — the `freq="D"` shift only relabels the index, which
`reset_index(drop=True)` then discards, and the positional series
aligns with the labels 0..n-1 — while the calendar-date alignment the
spec describes (with the gap respected and the undefined tail
back-filled from the row itself) yields [20, 20, 40].  The code
therefore performs no shift at all on its canonical input. -/
theorem shift_cases_example_disagrees_with_spec :
    shiftResultCol exdfC1 "dt_notific" "quantidade_de_casos" 1 =
      [Cell.num 10, Cell.num 20, Cell.num 40]
  ∧ shiftCasesSpecCol exdfC1 "dt_notific" "quantidade_de_casos" 1 =
      [Cell.num 20, Cell.num 20, Cell.num 40]
  ∧ shiftResultCol exdfC1 "dt_notific" "quantidade_de_casos" 1 ≠
      shiftCasesSpecCol exdfC1 "dt_notific" "quantidade_de_casos" 1 := by
  refine ⟨by decide, by decide, by decide⟩

/-- C2: on a missing raw epidemiology file, `pd.read_csv` raises the
built-in `FileNotFoundError`, which the module-level import from
`.exceptions` has shadowed with the framework class in the `except`
clause; the built-in class is not caught by it, so control reaches
`except Exception` and the function re-raises instead of returning
`None` — and independently `ingestion.py` imports `DataProcessingError`,
a name `exceptions.py` never binds, so the module cannot even be
imported. -/
theorem process_epi_missing_file_raises_not_skips :
    processEpiMissingFileOutcome = EpiOutcome.raisesDataProcessingError
  ∧ processEpiMissingFileOutcome ≠ EpiOutcome.skipsReturningNone
  ∧ pyCaughtBy readCsvMissingFileRaises PyClass.frameworkFileNotFoundError = false
  ∧ importSucceeds ingestionImportNames exceptionsModuleNames = false := by
  decide

/-- C3: `combination.py` imports `DataProcessingError` from
`.exceptions`, but `exceptions.py` binds no such name, so importing the
combination module raises `ImportError` — no call of
`combine_climate_and_epidemiological_data` can ever wrap a failure in a
`DataProcessingError`, because the class its `except` clause names does
not exist. -/
theorem combination_import_of_DataProcessingError_fails :
    importSucceeds combinationImportNames exceptionsModuleNames = false
  ∧ combinationImportNames.contains "DataProcessingError" = true
  ∧ exceptionsModuleNames.contains "DataProcessingError" = false := by
  decide

/-- C7 counterexample: `shift_cases` validates its two column names one
at a time, so when both are absent the raised `ColumnNotFoundError`
names only the date column ("d") and not the equally-missing cases
column ("c"). -/
theorem shift_cases_missing_columns_reports_only_date_column :
    shift_cases exdfC7 "d" "c" 7 = .error (.columnNotFound ["d"])
  ∧ exdfC7.header.contains "c" = false
  ∧ (["d"] : List String).contains "c" = false := by
  refine ⟨by decide, by decide, by decide⟩

/-- C8 counterexample: with the constant-value strategy and a null fill
value, the `ValueError` the source raises sits inside the per-column
`try`, so the caller observes an `InvalidTransformationError` wrapping
the argument-error text, not a `ValueError`. -/
theorem fill_value_none_raises_wrapped_invalid_transformation :
    fill_missing_values exdfC8 "value" none none none =
      .error (.invalidTransformation (fillWrapMsg "x" "value"
        "Um valor deve ser fornecido quando a estratégia for value."))
  ∧ isValueErrorRes (fill_missing_values exdfC8 "value" none none none) = false := by
  refine ⟨by decide, by decide⟩

/-- C7 amended: the transforms that validate a requested column list
raise one `ColumnNotFoundError` listing every absent name, while
`shift_cases` checks its two columns sequentially — an absent date
column is reported alone, and the cases column is only reported once
the date column exists. -/
theorem column_validations_list_all_missing_names
    (df : PyDF) (cols : List String) (mapping : List (String × String))
    (cs : List String) (hw : String) (keep : PyKeep) (strategy : String)
    (value : Option Cell) (limit : Option Nat) (dc cc : String) (days : Int) :
    (cols.filter (fun c => !df.header.contains c) ≠ [] →
      select_columns df cols =
        .error (.columnNotFound (cols.filter (fun c => !df.header.contains c))))
  ∧ ((mapping.map Prod.fst).filter (fun n => !df.header.contains n) ≠ [] →
      rename_columns df mapping =
        .error (.columnNotFound ((mapping.map Prod.fst).filter (fun n => !df.header.contains n))))
  ∧ (cs ≠ [] → cs.filter (fun c => !df.header.contains c) ≠ [] →
      drop_missing_values df (some cs) hw =
        .error (.columnNotFound (cs.filter (fun c => !df.header.contains c))))
  ∧ (cs ≠ [] → cs.filter (fun c => !df.header.contains c) ≠ [] →
      fill_missing_values df strategy (some cs) value limit =
        .error (.columnNotFound (cs.filter (fun c => !df.header.contains c))))
  ∧ (cs ≠ [] → cs.filter (fun c => !df.header.contains c) ≠ [] →
      drop_duplicates df (some cs) keep =
        .error (.columnNotFound (cs.filter (fun c => !df.header.contains c))))
  ∧ (df.header.contains dc = false →
      shift_cases df dc cc days = .error (.columnNotFound [dc]))
  ∧ (df.header.contains dc = true → df.header.contains cc = false →
      shift_cases df dc cc days = .error (.columnNotFound [cc])) := by
  refine ⟨?_, ?_, ?_, ?_, ?_, ?_, ?_⟩
  · intro h
    have hb : (cols.filter (fun c => !df.header.contains c)).isEmpty = false := by
      simpa [List.isEmpty_iff] using h
    simp only [select_columns]
    rw [hb]
    simp
  · intro h
    have hb : ((mapping.map Prod.fst).filter (fun n => !df.header.contains n)).isEmpty = false := by
      simpa [List.isEmpty_iff] using h
    simp only [rename_columns]
    rw [hb]
    simp
  · intro h1 h2
    have hb1 : cs.isEmpty = false := by simpa [List.isEmpty_iff] using h1
    have hb2 : (cs.filter (fun c => !df.header.contains c)).isEmpty = false := by
      simpa [List.isEmpty_iff] using h2
    simp only [drop_missing_values, truthyCols, Option.getD_some]
    rw [hb1, hb2]
    simp
  · intro h1 h2
    have hb1 : cs.isEmpty = false := by simpa [List.isEmpty_iff] using h1
    have hb2 : (cs.filter (fun c => !df.header.contains c)).isEmpty = false := by
      simpa [List.isEmpty_iff] using h2
    simp only [fill_missing_values, truthyCols, Option.getD_some]
    rw [hb1, hb2]
    simp
  · intro h1 h2
    have hb1 : cs.isEmpty = false := by simpa [List.isEmpty_iff] using h1
    have hb2 : (cs.filter (fun c => !df.header.contains c)).isEmpty = false := by
      simpa [List.isEmpty_iff] using h2
    simp only [drop_duplicates, truthyCols, Option.getD_some]
    rw [hb1, hb2]
    simp
  · intro h
    simp only [shift_cases]
    rw [h]
    simp
  · intro h1 h2
    simp only [shift_cases]
    rw [h1, h2]
    simp

/-- Witness for the C7 amended theorem: a concrete frame with header
["a"], a missing requested column "z", and a `shift_cases` call whose
date column exists but whose cases column does not. -/
theorem column_validations_list_all_missing_names_witness :
    select_columns exdfC7 ["z"] = .error (.columnNotFound ["z"])
  ∧ shift_cases exdfC7 "a" "c" 7 = .error (.columnNotFound ["c"]) := by
  have h := column_validations_list_all_missing_names exdfC7 ["z"] [] ["z"] "any"
    PyKeep.kfirst "mean" none none "a" "c" 7
  exact ⟨h.1 (by decide), h.2.2.2.2.2.2 (by decide) (by decide)⟩

/-- C8 amended: on any frame with at least one column, the
constant-value strategy with a null fill value fails with an
`InvalidTransformationError` wrapping the argument-error text (the
`ValueError` the source raises is caught by the per-column
`except Exception` and re-raised wrapped). -/
theorem fill_value_none_wraps_value_error (df : PyDF) (c : String)
    (rest : List String) (hh : df.header = c :: rest) (limit : Option Nat) :
    fill_missing_values df "value" none none limit =
      .error (.invalidTransformation (fillWrapMsg c "value"
        "Um valor deve ser fornecido quando a estratégia for value.")) := by
  obtain ⟨hd, idx, rws⟩ := df
  have hh2 : hd = c :: rest := hh
  subst hh2
  rfl

/-- Witness for the C8 amended theorem at the concrete one-column
frame. -/
theorem fill_value_none_wraps_value_error_witness :
    fill_missing_values exdfC8 "value" none none none =
      .error (.invalidTransformation (fillWrapMsg "x" "value"
        "Um valor deve ser fornecido quando a estratégia for value.")) :=
  fill_value_none_wraps_value_error exdfC8 "x" [] (by decide) none

/-- C10: with a strategy outside the supported set and no columns
argument, `fill_missing_values` resolves no column set at all, the
`if not columns` early return fires, and the frame comes back unchanged
with no error — the unsupported-strategy `ValueError` is never
reached. -/
theorem fill_unknown_strategy_no_columns_is_noop (df : PyDF) (strategy : String)
    (value : Option Cell) (limit : Option Nat)
    (h : ¬ strategy ∈ (["mean", "median", "mode", "ffill", "bfill", "value"] : List String)) :
    fill_missing_values df strategy none value limit = .ok df := by
  simp only [List.mem_cons, List.mem_singleton, not_or] at h
  obtain ⟨h1, h2, h3, h4, h5, h6⟩ := h
  simp [fill_missing_values, truthyCols, fillDefaultColumns, h1, h2, h3, h4, h5, h6]

/-- Witness for C10 at a concrete frame and the unsupported strategy
"banana". -/
theorem fill_unknown_strategy_no_columns_is_noop_witness :
    fill_missing_values exdfC8 "banana" none none none = .ok exdfC8 :=
  fill_unknown_strategy_no_columns_is_noop exdfC8 "banana" none none (by decide)

/-- C6: `identify_season` agrees with the spec boundary table on every
month/day of every year (Autumn from Mar 20, Winter from Jun 21, Spring
from Sep 22, Summer from Dec 21 wrapping), sends the five boundary dates
of 2023 to the labels the spec lists (Summer = "Verão",
Autumn = "Outono", Winter = "Inverno", Spring = "Primavera"), and sends
a missing date to a missing label. -/
theorem identify_season_matches_spec_boundaries :
    (∀ (y : Int) (m : Fin 13) (d : Fin 32),
      identify_season (some ⟨y, (m : Int), (d : Int)⟩) =
        some (seasonSpec (m : Int) (d : Int)))
  ∧ identify_season (some ⟨2023, 3, 19⟩) = some "Verão"
  ∧ identify_season (some ⟨2023, 3, 20⟩) = some "Outono"
  ∧ identify_season (some ⟨2023, 6, 21⟩) = some "Inverno"
  ∧ identify_season (some ⟨2023, 9, 22⟩) = some "Primavera"
  ∧ identify_season (some ⟨2023, 12, 21⟩) = some "Verão"
  ∧ identify_season none = none := by
  refine ⟨?_, by decide, by decide, by decide, by decide, by decide, rfl⟩
  intro y m d
  simp only [identify_season, dateLe, dateLt, seasonSpec, mdBefore]
  simp [lt_self_iff_false]
  revert m d
  decide

/-- Recovering the numeric values of an all-numeric column. -/
theorem filterMap_cellNum_map_num (l : List ℚ) :
    (l.map Cell.num).filterMap cellNum = l := by
  induction l with
  | nil => rfl
  | cons a t ih => simp [List.filterMap_cons, cellNum, ih]

/-- Value of the rolling-mean column at position `i` over an all-numeric
column: the mean of the trailing window slice. -/
theorem rollingMean_getD (w : Nat) (v : List ℚ) (i : Nat) (hi : i < v.length) :
    (rollingMeanCells w (v.map Cell.num)).getD i Cell.null =
      (if ((v.take (i+1)).drop (i+1-w)).isEmpty then Cell.null
       else Cell.num (((v.take (i+1)).drop (i+1-w)).sum /
         ((((v.take (i+1)).drop (i+1-w)).length : Nat) : ℚ))) := by
  have hlen : (v.map Cell.num).length = v.length := by simp
  simp only [rollingMeanCells, rollingWindowSlice]
  rw [List.getD_eq_getElem?_getD]
  rw [List.getElem?_map]
  rw [List.getElem?_range (by simpa [hlen] using hi)]
  simp only [Option.map_some', Option.getD_some]
  rw [← List.map_take, ← List.map_drop, filterMap_cellNum_map_num]

/-- Value of the rolling-sum column at position `i` over an all-numeric
column: the sum of the trailing window slice. -/
theorem rollingSum_getD (w : Nat) (v : List ℚ) (i : Nat) (hi : i < v.length) :
    (rollingSumCells w (v.map Cell.num)).getD i Cell.null =
      (if ((v.take (i+1)).drop (i+1-w)).isEmpty then Cell.null
       else Cell.num (((v.take (i+1)).drop (i+1-w)).sum)) := by
  have hlen : (v.map Cell.num).length = v.length := by simp
  simp only [rollingSumCells, rollingWindowSlice]
  rw [List.getD_eq_getElem?_getD]
  rw [List.getElem?_map]
  rw [List.getElem?_range (by simpa [hlen] using hi)]
  simp only [Option.map_some', Option.getD_some]
  rw [← List.map_take, ← List.map_drop, filterMap_cellNum_map_num]

/-- C5: over a column of values v0..v_(n-1) and window w ≥ 1, the rolling
mean at index i < w-1 is the mean of v0..vi (the window shrinks to the
available history, at least one row, never null), and at i ≥ w-1 it is
the mean of the w values ending at vi; the rolling sum satisfies the
analogous statement with sums. -/
theorem rolling_window_boundary (v : List ℚ) (w i : Nat) (hw : 1 ≤ w)
    (hi : i < v.length) :
    (i < w - 1 →
      (rollingMeanCells w (v.map Cell.num)).getD i Cell.null =
        Cell.num ((v.take (i+1)).sum / ((i+1 : Nat) : ℚ)) ∧
      (rollingSumCells w (v.map Cell.num)).getD i Cell.null =
        Cell.num ((v.take (i+1)).sum))
  ∧ (w - 1 ≤ i →
      (rollingMeanCells w (v.map Cell.num)).getD i Cell.null =
        Cell.num (((v.drop (i+1-w)).take w).sum / ((w : Nat) : ℚ)) ∧
      (rollingSumCells w (v.map Cell.num)).getD i Cell.null =
        Cell.num (((v.drop (i+1-w)).take w).sum)) := by
  constructor
  · intro hlt
    have h0 : i + 1 - w = 0 := by omega
    have hwin : (v.take (i+1)).drop (i+1-w) = v.take (i+1) := by
      rw [h0, List.drop_zero]
    have hlen : (v.take (i+1)).length = i+1 := by
      rw [List.length_take]; omega
    have hnn : v.take (i+1) ≠ [] := by
      intro hq; rw [hq] at hlen; simp at hlen
    have hne : (v.take (i+1)).isEmpty = false := by
      simpa [List.isEmpty_iff] using hnn
    constructor
    · rw [rollingMean_getD w v i hi, hwin]
      simp [hne, hlen]
    · rw [rollingSum_getD w v i hi, hwin]
      simp [hne]
  · intro hge
    have hdt : (v.take (i+1)).drop (i+1-w) = (v.drop (i+1-w)).take w := by
      rw [List.drop_take]
      congr 1
      omega
    have hlen : ((v.drop (i+1-w)).take w).length = w := by
      rw [List.length_take, List.length_drop]; omega
    have hnn : (v.drop (i+1-w)).take w ≠ [] := by
      intro hq; rw [hq] at hlen; simp at hlen; omega
    have hne : ((v.drop (i+1-w)).take w).isEmpty = false := by
      simpa [List.isEmpty_iff] using hnn
    constructor
    · rw [rollingMean_getD w v i hi, hdt]
      simp [hne, hlen]
    · rw [rollingSum_getD w v i hi, hdt]
      simp [hne]

/-- Witness for C5: window 3 over [1, 2, 3, 4], inside the warm-up (the
mean at index 1 is the mean of the first two values) and at a full
window (the sum at index 3 covers the last three values). -/
theorem rolling_window_boundary_witness :
    (rollingMeanCells 3 ([(1:ℚ), 2, 3, 4].map Cell.num)).getD 1 Cell.null =
      Cell.num (([(1:ℚ), 2, 3, 4].take 2).sum / ((2 : Nat) : ℚ))
  ∧ (rollingSumCells 3 ([(1:ℚ), 2, 3, 4].map Cell.num)).getD 3 Cell.null =
      Cell.num ((([(1:ℚ), 2, 3, 4].drop 1).take 3).sum) :=
  ⟨((rolling_window_boundary [(1:ℚ), 2, 3, 4] 3 1 (by decide) (by decide)).1
      (by decide)).1,
   ((rolling_window_boundary [(1:ℚ), 2, 3, 4] 3 3 (by decide) (by decide)).2
      (by decide)).2⟩

/-- Preservation through one handle-level run: the `get_dataframe` copy
is allocated fresh, the body writes hit only that fresh slot, and the
constructor allocates the result slot, so the input handle still holds
its original frame and the returned handle is new. -/
theorem runTransform_keeps (f : PyDF → Except PyErr PyDF) (h : Nat) (σ : List PyDF)
    (hh : h < σ.length) : transformKeeps (runTransform f h σ) h σ := by
  unfold transformKeeps runTransform
  cases hf : f ((σ ++ [σ.getD h emptyDF]).getD σ.length emptyDF) with
  | error e =>
    simp only [hf]
    refine ⟨List.getD_append _ _ _ _ hh, ?_⟩
    intro r hr
    cases hr
  | ok d =>
    simp only [hf]
    constructor
    · have hlen1 : h < ((σ ++ [σ.getD h emptyDF]).set σ.length d).length := by
        rw [List.length_set]
        simp
        omega
      rw [List.getD_append _ _ _ _ hlen1]
      rw [List.getD_eq_getElem?_getD, List.getElem?_set_ne (by omega : σ.length ≠ h),
        ← List.getD_eq_getElem?_getD]
      exact List.getD_append _ _ _ _ hh
    · intro r hr
      have hr2 : r = ((σ ++ [σ.getD h emptyDF]).set σ.length d).length := by
        cases hr
        rfl
      rw [hr2, List.length_set]
      simp
      omega

/-- C9: every one of the twelve transforms, run against a live handle,
leaves the frame held by the input handle unchanged (columns and values
alike) and, when it succeeds, hands back a different handle — the value
semantics of the wrapper. -/
theorem transforms_return_fresh_handle_preserving_input
    (σ : List PyDF) (h : Nat) (hh : h < σ.length)
    (selCols : List String) (cond : PyDF → Except PyErr (List Bool))
    (columns : Option (List String)) (hw : String) (strategy : String)
    (value : Option Cell) (limit : Option Nat) (subset : Option (List String))
    (keep : PyKeep) (col : String) (fc : Cell → Except String Cell)
    (nc : String) (fn : PyDF → Except PyErr PyFuncResult)
    (mapping : List (String × String)) (window : Nat) (sfx : String)
    (dc cc : String) (days : Int) :
    transformKeeps (select_columnsH selCols h σ) h σ
  ∧ transformKeeps (filter_rowsH cond h σ) h σ
  ∧ transformKeeps (drop_missing_valuesH columns hw h σ) h σ
  ∧ transformKeeps (fill_missing_valuesH strategy columns value limit h σ) h σ
  ∧ transformKeeps (drop_duplicatesH subset keep h σ) h σ
  ∧ transformKeeps (apply_function_to_columnH col fc h σ) h σ
  ∧ transformKeeps (create_new_columnH nc fn h σ) h σ
  ∧ transformKeeps (rename_columnsH mapping h σ) h σ
  ∧ transformKeeps (calculate_rolling_meanH col window sfx h σ) h σ
  ∧ transformKeeps (calculate_rolling_sumH col window sfx h σ) h σ
  ∧ transformKeeps (shift_casesH dc cc days h σ) h σ
  ∧ transformKeeps (add_season_columnH dc h σ) h σ := by
  refine ⟨?_, ?_, ?_, ?_, ?_, ?_, ?_, ?_, ?_, ?_, ?_, ?_⟩ <;>
    exact runTransform_keeps _ h σ hh

/-- Witness for C9: all twelve transforms run against handle 0 of a
one-frame store with concrete arguments. -/
theorem transforms_return_fresh_handle_preserving_input_witness :
    transformKeeps (select_columnsH ["dt_notific"] 0 exStore) 0 exStore
  ∧ transformKeeps (filter_rowsH (fun _ => .ok [true, true, true]) 0 exStore) 0 exStore
  ∧ transformKeeps (drop_missing_valuesH none "any" 0 exStore) 0 exStore
  ∧ transformKeeps (fill_missing_valuesH "mean" none none none 0 exStore) 0 exStore
  ∧ transformKeeps (drop_duplicatesH none PyKeep.kfirst 0 exStore) 0 exStore
  ∧ transformKeeps (apply_function_to_columnH "quantidade_de_casos" (fun c => .ok c) 0 exStore) 0 exStore
  ∧ transformKeeps (create_new_columnH "dobro" (fun _ => .ok (.series [])) 0 exStore) 0 exStore
  ∧ transformKeeps (rename_columnsH [("quantidade_de_casos", "casos")] 0 exStore) 0 exStore
  ∧ transformKeeps (calculate_rolling_meanH "quantidade_de_casos" 3 "_media" 0 exStore) 0 exStore
  ∧ transformKeeps (calculate_rolling_sumH "quantidade_de_casos" 3 "_soma" 0 exStore) 0 exStore
  ∧ transformKeeps (shift_casesH "dt_notific" "quantidade_de_casos" 7 0 exStore) 0 exStore
  ∧ transformKeeps (add_season_columnH "dt_notific" 0 exStore) 0 exStore :=
  transforms_return_fresh_handle_preserving_input exStore 0 (by decide)
    ["dt_notific"] (fun _ => .ok [true, true, true]) none "any" "mean" none none
    none PyKeep.kfirst "quantidade_de_casos" (fun c => .ok c) "dobro"
    (fun _ => .ok (.series [])) [("quantidade_de_casos", "casos")] 3 "_media"
    "dt_notific" "quantidade_de_casos" 7

theorem strIdx_lt_length (name : String) (l : List String)
    (h : l.contains name = true) : strIdx name l < l.length := by
  induction l with
  | nil => simp at h
  | cons s rest ih =>
    by_cases hs : s = name
    · simp [strIdx, hs]
    · have hr : rest.contains name = true := by
        simp [List.contains_cons] at h ⊢
        rcases h with h | h
        · exact absurd h.symm hs
        · exact h
      simp [strIdx, hs, ih hr]

theorem strIdx_append_left (name : String) (l l2 : List String)
    (h : l.contains name = true) : strIdx name (l ++ l2) = strIdx name l := by
  induction l with
  | nil => simp at h
  | cons s rest ih =>
    by_cases hs : s = name
    · simp [strIdx, hs]
    · have hr : rest.contains name = true := by
        simp [List.contains_cons] at h ⊢
        rcases h with h | h
        · exact absurd h.symm hs
        · exact h
      simp [strIdx, hs, ih hr]

theorem strIdx_append_fresh (name : String) (l : List String)
    (h : l.contains name = false) : strIdx name (l ++ [name]) = l.length := by
  induction l with
  | nil => simp [strIdx]
  | cons s rest ih =>
    simp [List.contains_cons] at h
    have hs : ¬ s = name := fun q => h.1 q.symm
    have hr : rest.contains name = false := by simpa using h.2
    simp [strIdx, hs, ih hr]

theorem strIdx_map_rename (l : List String)
    (h : l.contains "dt_notific" = false) :
    strIdx "dt_notific" (l.map (fun s => if s = "date" then "dt_notific" else s)) =
      strIdx "date" l := by
  induction l with
  | nil => rfl
  | cons s rest ih =>
    simp [List.contains_cons] at h
    have hs : ¬ s = "dt_notific" := fun q => h.1 q.symm
    have hr : rest.contains "dt_notific" = false := by simpa using h.2
    by_cases hd : s = "date"
    · simp [strIdx, hd]
    · simp [strIdx, hd, hs, ih hr]

theorem contains_map_rename_false (l : List String) (x : String)
    (hx : l.contains x = false) (hx2 : ¬ x = "dt_notific") :
    (l.map (fun s => if s = "date" then "dt_notific" else s)).contains x = false := by
  have hx' : x ∉ l := by simpa using hx
  have hnm : x ∉ l.map (fun s => if s = "date" then "dt_notific" else s) := by
    intro hmem
    rcases List.mem_map.mp hmem with ⟨s, hsmem, hrn⟩
    by_cases hd : s = "date"
    · rw [hd] at hrn
      simp at hrn
      exact hx2 hrn.symm
    · rw [if_neg hd] at hrn
      exact hx' (hrn ▸ hsmem)
  simpa using hnm

theorem contains_map_rename_true (l : List String)
    (h : l.contains "date" = true) :
    (l.map (fun s => if s = "date" then "dt_notific" else s)).contains "dt_notific" = true := by
  have hm : "date" ∈ l := by simpa using h
  have : "dt_notific" ∈ l.map (fun s => if s = "date" then "dt_notific" else s) := by
    refine List.mem_map.mpr ⟨"date", hm, ?_⟩
    simp
  simpa using this

theorem set_getD_self {α : Type} (d : α) : ∀ (r : List α) (j : Nat), j < r.length →
    r.set j (r.getD j d) = r
  | [], j, h => by simp at h
  | a :: t, 0, _ => by simp
  | a :: t, j+1, h => by
    simp only [List.getD_cons_succ, List.set_cons_succ]
    rw [set_getD_self d t j (by simpa using h)]

theorem replaceCol_map (j : Nat) (g : List Cell → Cell) : ∀ rows : List (List Cell),
    replaceCol j rows (rows.map g) = rows.map (fun r => r.set j (g r))
  | [] => rfl
  | r :: rs => by simp [replaceCol, replaceCol_map j g rs]

theorem attachCol_eq_zip : ∀ (rows : List (List Cell)) (cells : List Cell),
    cells.length = rows.length →
    attachCol rows cells = (rows.zip cells).map (fun p => p.1 ++ [p.2])
  | [], _, _ => by simp [attachCol]
  | r :: rs, [], h => by simp at h
  | r :: rs, c :: cs, h => by
    simp [attachCol, attachCol_eq_zip rs cs (by simpa using h)]

theorem set_append_len {α : Type} (l : List α) (c v : α) :
    (l ++ [c]).set l.length v = l ++ [v] := by
  induction l with
  | nil => rfl
  | cons a t ih => simp [ih]

theorem getD_append_len {α : Type} (l : List α) (c d : α) :
    (l ++ [c]).getD l.length d = c := by
  induction l with
  | nil => rfl
  | cons a t ih => simp [ih]

theorem datetimeDtypeCells_true (cells : List Cell)
    (h : ∀ c ∈ cells, isDateCell c = true) (hne : cells ≠ []) :
    datetimeDtypeCells cells = true := by
  cases cells with
  | nil => exact absurd rfl hne
  | cons c cs =>
    simp [datetimeDtypeCells]
    refine ⟨⟨Or.inl (h c (List.mem_cons_self c cs)), ?_⟩, ?_⟩
    · intro x hx
      exact Or.inl (h x (List.mem_cons_of_mem c hx))
    · exact Or.inl (h c (List.mem_cons_self c cs))

theorem numericDtypeCells_of_dates (cells : List Cell)
    (h : ∀ c ∈ cells, isDateCell c = true) :
    numericDtypeCells cells = false := by
  simp [numericDtypeCells]
  intro hall
  intro x hx
  have := h x hx
  cases x <;> simp [isNumCell] <;> simp [isDateCell] at this

theorem map_fst_zip_eq {α β : Type} : ∀ (l1 : List α) (l2 : List β),
    l1.length = l2.length → (l1.zip l2).map Prod.fst = l1
  | [], [], _ => rfl
  | [], b :: t2, h => by simp at h
  | a :: t1, [], h => by simp at h
  | a :: t1, b :: t2, h => by
    simp [map_fst_zip_eq t1 t2 (by simpa using h)]

theorem map_snd_zip_eq {α β : Type} : ∀ (l1 : List α) (l2 : List β),
    l1.length = l2.length → (l1.zip l2).map Prod.snd = l2
  | [], [], _ => rfl
  | [], b :: t2, h => by simp at h
  | a :: t1, [], h => by simp at h
  | a :: t1, b :: t2, h => by
    simp [map_snd_zip_eq t1 t2 (by simpa using h)]

theorem attachCol_length : ∀ (rows : List (List Cell)) (cells : List Cell),
    (attachCol rows cells).length = rows.length
  | [], _ => rfl
  | r :: rs, [] => by simp [attachCol, attachCol_length rs []]
  | r :: rs, c :: cs => by simp [attachCol, attachCol_length rs cs]

theorem roundRow_length : ∀ (bs : List Bool) (r : List Cell),
    (roundRow bs r).length = r.length
  | [], [] => rfl
  | _ :: _, [] => rfl
  | [], _ :: _ => rfl
  | b :: bs, c :: cs => by simp [roundRow, roundRow_length bs cs]

theorem roundRow_getD : ∀ (bs : List Bool) (r : List Cell) (i : Nat),
    (roundRow bs r).getD i Cell.null =
      (if bs.getD i false then roundCell (r.getD i Cell.null) else r.getD i Cell.null)
  | [], [], i => by cases i <;> simp [roundRow]
  | _ :: _, [], i => by
    simp only [roundRow, List.getD_nil]
    split
    · rfl
    · rfl
  | [], c :: cs, i => by simp [roundRow]
  | b :: bs, c :: cs, 0 => by simp [roundRow]
  | b :: bs, c :: cs, i+1 => by
    simp only [roundRow, List.getD_cons_succ]
    exact roundRow_getD bs cs i

theorem RowsExt.length {rows2 rows : List (List Cell)} (h : RowsExt rows2 rows) :
    rows2.length = rows.length := by
  rcases h with ⟨pairs, hperm, hrw⟩
  rw [hrw]
  simpa using hperm.length_eq

theorem RowsExt.mem {rows2 rows : List (List Cell)} (h : RowsExt rows2 rows)
    {r2 : List Cell} (hm : r2 ∈ rows2) : ∃ r ∈ rows, ∃ c, r2 = r ++ [c] := by
  rcases h with ⟨pairs, hperm, hrw⟩
  rw [hrw] at hm
  rcases List.mem_map.mp hm with ⟨p, hp, hpe⟩
  exact ⟨p.1, hperm.mem_iff.mp (List.mem_map_of_mem _ hp), p.2, hpe.symm⟩

theorem RowsExt.count_getD {rows2 rows : List (List Cell)} (h : RowsExt rows2 rows)
    (j : Nat) (hj : ∀ r ∈ rows, j < r.length) (k : Cell) :
    (rows2.map (fun r => r.getD j Cell.null)).count k =
      (rows.map (fun r => r.getD j Cell.null)).count k := by
  rcases h with ⟨pairs, hperm, hrw⟩
  rw [hrw]
  have h1 : (pairs.map (fun p => p.1 ++ [p.2])).map (fun r => r.getD j Cell.null) =
      (pairs.map Prod.fst).map (fun r => r.getD j Cell.null) := by
    rw [List.map_map, List.map_map]
    refine List.map_congr_left ?_
    intro p hp
    have hmem : p.1 ∈ rows := hperm.mem_iff.mp (List.mem_map_of_mem _ hp)
    exact List.getD_append _ _ _ _ (hj p.1 hmem)
  rw [h1]
  exact (hperm.map (fun r => r.getD j Cell.null)).count_eq k

theorem RowsExt.attach (rows : List (List Cell)) (cells : List Cell)
    (h : cells.length = rows.length) : RowsExt (attachCol rows cells) rows := by
  refine ⟨rows.zip cells, ?_, ?_⟩
  · rw [map_fst_zip_eq rows cells h.symm]
  · exact attachCol_eq_zip rows cells h

theorem leftMergeRows_eq_map (jD : Nat) (right : List (Cell × Cell))
    (huniq : ∀ k, (right.filter (fun p => p.1 == k)).length ≤ 1) :
    ∀ rows : List (List Cell),
      leftMergeRows jD rows right =
        rows.map (fun r => r ++ [qLookup right (r.getD jD Cell.null)])
  | [] => rfl
  | r :: rs => by
    have hrec := leftMergeRows_eq_map jD right huniq rs
    simp only [leftMergeRows] at hrec ⊢
    rw [List.flatMap_cons, hrec, List.map_cons]
    cases hfl : List.filter (fun p => p.1 == r.getD jD Cell.null) right with
    | nil =>
      simp only [qLookup, hfl]
      rfl
    | cons p tl =>
      have hlen := huniq (r.getD jD Cell.null)
      rw [hfl] at hlen
      cases tl with
      | nil =>
        simp only [qLookup, hfl, List.map_cons, List.map_nil]
        rfl
      | cons q tq => simp at hlen

theorem rowsExt_attach_perm (rows base : List (List Cell)) (cells : List Cell)
    (hperm : rows.Perm base) (hlen : cells.length = rows.length) :
    RowsExt (attachCol rows cells) base :=
  ⟨rows.zip cells,
   by rw [map_fst_zip_eq _ _ hlen.symm]; exact hperm,
   attachCol_eq_zip _ _ hlen⟩

theorem shift_stage (df : PyDF) (days : Int)
    (hdays : (days == 0) = false)
    (hdt : "dt_notific" ∈ df.header)
    (hqc : "quantidade_de_casos" ∈ df.header)
    (hfresh : ("quantidade_de_casos_" ++ toString days.natAbs ++ "dias") ∉ df.header)
    (hidx : df.index.length = df.rows.length)
    (hall : ∀ c ∈ colCells df "dt_notific", isDateCell c = true)
    (hne : df.rows ≠ []) :
    ∃ out, shift_cases df "dt_notific" "quantidade_de_casos" days = .ok out ∧
      out.header = df.header ++
        ["quantidade_de_casos_" ++ toString days.natAbs ++ "dias"] ∧
      out.index.length = out.rows.length ∧
      RowsExt out.rows df.rows := by
  have hcne : colCells df "dt_notific" ≠ [] := by
    simp only [colCells]
    intro hq
    exact hne (List.map_eq_nil_iff.mp hq)
  have hdtype : datetimeDtype df "dt_notific" = true :=
    datetimeDtypeCells_true _ hall hcne
  have hdtB : df.header.contains "dt_notific" = true := by simpa using hdt
  have hqcB : df.header.contains "quantidade_de_casos" = true := by simpa using hqc
  have hfrB : df.header.contains
      ("quantidade_de_casos_" ++ toString days.natAbs ++ "dias") = false := by
    simpa using hfresh
  simp only [shift_cases, hdtB, hqcB, hdtype, hdays, Bool.not_true, Bool.not_false,
    Bool.false_eq_true, if_false, if_true, ite_false, ite_true]
  set s := sortByDateIdx (strIdx "dt_notific" df.header) (df.index.zip df.rows) with hs
  have hperm : (s.map Prod.snd).Perm df.rows := by
    have h1 := List.perm_insertionSort
      (fun a b => cellDateKey (a.2.getD (strIdx "dt_notific" df.header) Cell.null) ≤
        cellDateKey (b.2.getD (strIdx "dt_notific" df.header) Cell.null))
      (df.index.zip df.rows)
    have h2 := h1.map Prod.snd
    rw [map_snd_zip_eq df.index df.rows hidx] at h2
    exact h2
  refine ⟨_, rfl, ?_, ?_, ?_⟩
  · simp [setColumn, hfresh]
  · simp [setColumn, hfresh, attachCol_length]
  · simp only [setColumn]
    rw [if_neg (by simpa using hfresh)]
    exact rowsExt_attach_perm _ df.rows _ hperm (by simp)

theorem coerce_fix (c : Cell) (h : isDateCell c = true) : coerceDatetimeCell c = c := by
  cases c <;> simp [coerceDatetimeCell] <;> simp [isDateCell] at h

theorem replaceCol_length (j : Nat) : ∀ (rows : List (List Cell)) (cells : List Cell),
    (replaceCol j rows cells).length = rows.length
  | [], _ => rfl
  | r :: rs, [] => by simp [replaceCol, replaceCol_length j rs []]
  | r :: rs, c :: cs => by simp [replaceCol, replaceCol_length j rs cs]

theorem mapColumnAt_header (df : PyDF) (name : String) (f : Cell → Cell)
    (hmem : name ∈ df.header) :
    (mapColumnAt df name f).header = df.header ∧
    (mapColumnAt df name f).index = df.index ∧
    (mapColumnAt df name f).rows =
      replaceCol (strIdx name df.header) df.rows ((colCells df name).map f) := by
  unfold mapColumnAt setColumn
  rw [if_pos (by simpa using hmem)]
  exact ⟨rfl, rfl, rfl⟩

theorem mapColumnAt_id (df : PyDF) (name : String) (f : Cell → Cell)
    (hmem : name ∈ df.header)
    (hfix : ∀ r ∈ df.rows, f (r.getD (strIdx name df.header) Cell.null) =
      r.getD (strIdx name df.header) Cell.null)
    (hlen : ∀ r ∈ df.rows, strIdx name df.header < r.length) :
    mapColumnAt df name f = df := by
  obtain ⟨hh, hi, hr⟩ := mapColumnAt_header df name f hmem
  have hrows : (mapColumnAt df name f).rows = df.rows := by
    rw [hr, colCells, List.map_map, replaceCol_map]
    have : df.rows.map (fun r =>
        r.set (strIdx name df.header) ((f ∘ fun r => r.getD (strIdx name df.header) Cell.null) r)) =
        df.rows.map id := by
      refine List.map_congr_left ?_
      intro r hrm
      simp only [Function.comp, hfix r hrm, id]
      exact set_getD_self Cell.null r _ (hlen r hrm)
    rw [this, List.map_id]
  cases hdf : mapColumnAt df name f
  cases df
  simp only at hh hi hrows
  rw [hdf] at hh hi hrows
  simp only at hh hi hrows
  simp [hh, hi, hrows]

theorem inv_transport (right : List (Cell × Cell)) (jD jQ : Nat) (hlt : jD < jQ)
    {rows2 rows : List (List Cell)} (hre : RowsExt rows2 rows)
    (hB : ∀ r ∈ rows, jQ < r.length ∧ isDateCell (r.getD jD Cell.null) = true ∧
      (right.filter (fun p => p.1 == r.getD jD Cell.null) = [] →
        r.getD jQ Cell.null = Cell.num 0)) :
    ∀ r2 ∈ rows2, jQ < r2.length ∧ isDateCell (r2.getD jD Cell.null) = true ∧
      (right.filter (fun p => p.1 == r2.getD jD Cell.null) = [] →
        r2.getD jQ Cell.null = Cell.num 0) := by
  intro r2 hm
  rcases hre.mem hm with ⟨r, hr, c, rfl⟩
  obtain ⟨hb1, hb2, hb3⟩ := hB r hr
  have hg1 : (r ++ [c]).getD jD Cell.null = r.getD jD Cell.null :=
    List.getD_append _ _ _ _ (lt_trans hlt hb1)
  have hg2 : (r ++ [c]).getD jQ Cell.null = r.getD jQ Cell.null :=
    List.getD_append _ _ _ _ hb1
  refine ⟨by simp; omega, by rw [hg1]; exact hb2, ?_⟩
  intro hnm
  rw [hg1] at hnm
  rw [hg2]
  exact hb3 hnm

theorem roundCell_zero : roundCell (Cell.num 0) = Cell.num 0 := by
  simp [roundCell, round3]

theorem pydf_eq {a b : PyDF} (h1 : a.header = b.header) (h2 : a.index = b.index)
    (h3 : a.rows = b.rows) : a = b := by
  cases a
  cases b
  simp only at h1 h2 h3
  rw [h1, h2, h3]

theorem season_stage (df : PyDF)
    (hdt : "dt_notific" ∈ df.header)
    (hfresh : "estacao" ∉ df.header)
    (hall : ∀ c ∈ colCells df "dt_notific", isDateCell c = true)
    (hne : df.rows ≠ []) :
    ∃ out, add_season_column df "dt_notific" = .ok out ∧
      out.header = df.header ++ ["estacao"] ∧
      out.index = df.index ∧
      RowsExt out.rows df.rows := by
  have hcne : colCells df "dt_notific" ≠ [] := by
    simp only [colCells]
    intro hq
    exact hne (List.map_eq_nil_iff.mp hq)
  have hdtype : datetimeDtype df "dt_notific" = true :=
    datetimeDtypeCells_true _ hall hcne
  have hdtB : df.header.contains "dt_notific" = true := by simpa using hdt
  simp only [add_season_column, hdtB, hdtype, Bool.not_true, Bool.not_false,
    Bool.false_eq_true, if_false, if_true, ite_false, ite_true]
  refine ⟨_, rfl, ?_, ?_, ?_⟩
  · simp [setColumn, hfresh]
  · simp [setColumn, hfresh]
  · simp only [setColumn]
    rw [if_neg (by simpa using hfresh)]
    exact rowsExt_attach_perm _ df.rows _ (List.Perm.refl _) (by simp [colCells])

theorem numericFlags_getD_false (df : PyDF) (j : Nat) (hj : j < df.header.length)
    (hdates : ∀ c ∈ df.rows.map (fun r => r.getD j Cell.null), isDateCell c = true) :
    (numericFlags df).getD j false = false := by
  simp only [numericFlags]
  rw [List.getD_eq_getElem?_getD, List.getElem?_map, List.getElem?_range hj]
  simp only [Option.map_some', Option.getD_some]
  exact numericDtypeCells_of_dates _ hdates

theorem round_dtcol_eq (df : PyDF) (jD : Nat)
    (hflag : (numericFlags df).getD jD false = false) :
    (roundNumericCols df).rows.map (fun r => r.getD jD Cell.null) =
      df.rows.map (fun r => r.getD jD Cell.null) := by
  simp only [roundNumericCols, List.map_map]
  refine List.map_congr_left ?_
  intro r hrm
  simp only [Function.comp]
  rw [roundRow_getD, hflag]
  simp

theorem shift_stage_inv (right : List (Cell × Cell)) (jD jQ : Nat)
    (base : List (List Cell)) (df : PyDF) (days : Int)
    (hdays : (days == 0) = false) (hlt : jD < jQ) (hbase : base ≠ [])
    (hinv : StageInv right jD jQ base df)
    (hfresh : ("quantidade_de_casos_" ++ toString days.natAbs ++ "dias") ∉ df.header) :
    ∃ out, shift_cases df "dt_notific" "quantidade_de_casos" days = .ok out ∧
      out.header = df.header ++
        ["quantidade_de_casos_" ++ toString days.natAbs ++ "dias"] ∧
      StageInv right jD jQ base out := by
  obtain ⟨hsd, hdl, hdt, hqc, hidx, hlen, hcount, hB⟩ := hinv
  have hne : df.rows ≠ [] := by
    intro hqz
    rw [hqz] at hlen
    exact hbase (List.length_eq_zero.mp hlen.symm)
  have hall : ∀ c ∈ colCells df "dt_notific", isDateCell c = true := by
    intro c hc
    simp only [colCells, hsd] at hc
    rcases List.mem_map.mp hc with ⟨r, hr, rfl⟩
    exact (hB r hr).2.1
  obtain ⟨out, ho, hh, hi, he⟩ := shift_stage df days hdays hdt hqc hfresh hidx hall hne
  refine ⟨out, ho, hh, ?_, ?_, ?_, ?_, ?_, ?_, ?_, ?_⟩
  · rw [hh, strIdx_append_left _ _ _ (by simpa using hdt)]
    exact hsd
  · rw [hh]
    simp only [List.length_append]
    omega
  · rw [hh]
    exact List.mem_append_left _ hdt
  · rw [hh]
    exact List.mem_append_left _ hqc
  · exact hi
  · rw [he.length]
    exact hlen
  · intro k
    rw [he.count_getD jD (fun r hr => lt_trans hlt (hB r hr).1) k]
    exact hcount k
  · exact inv_transport right jD jQ hlt he hB

theorem season_stage_inv (right : List (Cell × Cell)) (jD jQ : Nat)
    (base : List (List Cell)) (df : PyDF)
    (hlt : jD < jQ) (hbase : base ≠ [])
    (hinv : StageInv right jD jQ base df)
    (hfresh : "estacao" ∉ df.header) :
    ∃ out, add_season_column df "dt_notific" = .ok out ∧
      StageInv right jD jQ base out := by
  obtain ⟨hsd, hdl, hdt, hqc, hidx, hlen, hcount, hB⟩ := hinv
  have hne : df.rows ≠ [] := by
    intro hqz
    rw [hqz] at hlen
    exact hbase (List.length_eq_zero.mp hlen.symm)
  have hall : ∀ c ∈ colCells df "dt_notific", isDateCell c = true := by
    intro c hc
    simp only [colCells, hsd] at hc
    rcases List.mem_map.mp hc with ⟨r, hr, rfl⟩
    exact (hB r hr).2.1
  obtain ⟨out, ho, hh, hi, he⟩ := season_stage df hdt hfresh hall hne
  refine ⟨out, ho, ?_, ?_, ?_, ?_, ?_, ?_, ?_, ?_⟩
  · rw [hh, strIdx_append_left _ _ _ (by simpa using hdt)]
    exact hsd
  · rw [hh]
    simp only [List.length_append]
    omega
  · rw [hh]
    exact List.mem_append_left _ hdt
  · rw [hh]
    exact List.mem_append_left _ hqc
  · rw [hi, he.length, hidx, hlen]
  · rw [he.length]
    exact hlen
  · intro k
    rw [he.count_getD jD (fun r hr => lt_trans hlt (hB r hr).1) k]
    exact hcount k
  · exact inv_transport right jD jQ hlt he hB

theorem round_stage_inv (right : List (Cell × Cell)) (jD jQ : Nat)
    (base : List (List Cell)) (df : PyDF)
    (hinv : StageInv right jD jQ base df) :
    (roundNumericCols df).rows.length = base.length ∧
    (∀ k : Cell, ((roundNumericCols df).rows.map (fun r => r.getD jD Cell.null)).count k =
      (base.map (fun r => r.getD jD Cell.null)).count k) ∧
    (∀ r2 ∈ (roundNumericCols df).rows,
      right.filter (fun p => p.1 == r2.getD jD Cell.null) = [] →
      r2.getD jQ Cell.null = Cell.num 0) := by
  obtain ⟨hsd, hdl, hdt, hqc, hidx, hlen, hcount, hB⟩ := hinv
  have hflag : (numericFlags df).getD jD false = false := by
    refine numericFlags_getD_false df jD hdl ?_
    intro c hc
    rcases List.mem_map.mp hc with ⟨r, hr, rfl⟩
    exact (hB r hr).2.1
  have hcols := round_dtcol_eq df jD hflag
  refine ⟨?_, ?_, ?_⟩
  · simp only [roundNumericCols, List.length_map]
    exact hlen
  · intro k
    rw [hcols]
    exact hcount k
  · intro r2 hm
    simp only [roundNumericCols] at hm
    rcases List.mem_map.mp hm with ⟨r, hr, rfl⟩
    obtain ⟨hb1, hb2, hb3⟩ := hB r hr
    have hgd : (roundRow (numericFlags df) r).getD jD Cell.null =
        r.getD jD Cell.null := by
      rw [roundRow_getD, hflag]
      simp
    intro hnm
    rw [hgd] at hnm
    rw [roundRow_getD]
    cases hfq : (numericFlags df).getD jQ false
    · simpa using hb3 hnm
    · simp only [if_true, ite_true]
      rw [hb3 hnm, roundCell_zero]

/-- C4: under a well-formed climate table with a date-typed date column
and a case table carrying at most one row per date for the configured
municipality, the combination pipeline succeeds and its output has
exactly one row per climate row (same length, and the same number of
rows per date value as the climate table), while every output row whose
date matches no case record carries a case count of zero. -/
theorem combine_left_join_completeness
    (climate cases : PyDF) (municipio : String)
    (hwfc : ∀ r ∈ climate.rows, r.length = climate.header.length)
    (hdate : "date" ∈ climate.header)
    (hnd : "dt_notific" ∉ climate.header)
    (hq : "quantidade_de_casos" ∉ climate.header)
    (h7 : "quantidade_de_casos_7dias" ∉ climate.header)
    (h14 : "quantidade_de_casos_14dias" ∉ climate.header)
    (h21 : "quantidade_de_casos_21dias" ∉ climate.header)
    (hest : "estacao" ∉ climate.header)
    (hcells : ∀ r ∈ climate.rows,
      isDateCell (r.getD (strIdx "date" climate.header) Cell.null) = true)
    (hne : climate.rows ≠ [])
    (hct : "dt_notific" ∈ cases.header)
    (hcm : "mun" ∈ cases.header)
    (hcq : "quantidade_de_casos" ∈ cases.header)
    (huniq : ∀ k, ((mergeRightPairs (mapColumnAt cases "dt_notific" coerceDatetimeCell)
      municipio).filter (fun p => p.1 == k)).length ≤ 1) :
    ∃ out, combineTry climate cases municipio = .ok out ∧
      out.rows.length = climate.rows.length ∧
      (∀ k : Cell,
        (out.rows.map (fun r => r.getD (strIdx "date" climate.header) Cell.null)).count k =
        (climate.rows.map (fun r => r.getD (strIdx "date" climate.header) Cell.null)).count k) ∧
      (∀ r ∈ out.rows,
        (mergeRightPairs (mapColumnAt cases "dt_notific" coerceDatetimeCell) municipio).filter
          (fun p => p.1 == r.getD (strIdx "date" climate.header) Cell.null) = [] →
        r.getD climate.header.length Cell.null = Cell.num 0) := by
  have hjDlt : strIdx "date" climate.header < climate.header.length :=
    strIdx_lt_length _ _ (by simpa using hdate)
  have hclen : ∀ r ∈ climate.rows, strIdx "date" climate.header < r.length := by
    intro r hr
    rw [hwfc r hr]
    exact hjDlt
  have hcoerce_id : mapColumnAt climate "date" coerceDatetimeCell = climate :=
    mapColumnAt_id _ _ _ hdate (fun r hr => coerce_fix _ (hcells r hr)) hclen
  obtain ⟨hch, hci, hcr⟩ := mapColumnAt_header cases "dt_notific" coerceDatetimeCell hct
  have hctB : cases.header.contains "dt_notific" = true := by simpa using hct
  have hdateB : climate.header.contains "date" = true := by simpa using hdate
  have hcmB : (mapColumnAt cases "dt_notific" coerceDatetimeCell).header.contains "mun" = true := by
    rw [hch]
    simpa using hcm
  have hcqB : (mapColumnAt cases "dt_notific" coerceDatetimeCell).header.contains
      "quantidade_de_casos" = true := by
    rw [hch]
    simpa using hcq
  simp only [combineTry, hctB, hdateB, hcmB, hcqB, Bool.not_true, Bool.not_false,
    Bool.false_eq_true, if_false, if_true, ite_false, ite_true, hcoerce_id]
  rw [strIdx_map_rename climate.header (by simpa using hnd)]
  rw [leftMergeRows_eq_map (strIdx "date" climate.header) _ huniq climate.rows]
  set jD := strIdx "date" climate.header with hjD
  set right := mergeRightPairs (mapColumnAt cases "dt_notific" coerceDatetimeCell)
    municipio with hright
  set Hr := List.map (fun s => if s = "date" then "dt_notific" else s)
    climate.header with hHr
  set rowsM := climate.rows.map
    (fun r => r ++ [qLookup right (r.getD jD Cell.null)]) with hrowsM
  have hqHr : "quantidade_de_casos" ∉ Hr := by
    rw [hHr]
    have hcf := contains_map_rename_false climate.header "quantidade_de_casos"
      (by simpa using hq) (by decide)
    simpa using hcf
  have hHrlen : Hr.length = climate.header.length := by rw [hHr]; simp
  have hdtHr : "dt_notific" ∈ Hr := by
    rw [hHr]
    have := contains_map_rename_true climate.header hdateB
    simpa using this
  have hjQ : strIdx "quantidade_de_casos" (Hr ++ ["quantidade_de_casos"]) = Hr.length :=
    strIdx_append_fresh _ _ (by simpa using hqHr)
  have hsdHr : strIdx "dt_notific" (Hr ++ ["quantidade_de_casos"]) = jD := by
    rw [strIdx_append_left _ _ _ (by simpa using hdtHr), hHr,
      strIdx_map_rename climate.header (by simpa using hnd), hjD]
  have hmerged : mapColumnAt
      ⟨Hr ++ ["quantidade_de_casos"],
       (List.range rowsM.length).map Int.ofNat, rowsM⟩
      "quantidade_de_casos" (fun c => astypeIntCell (fillnaScalar (Cell.num 0) c)) =
      ⟨Hr ++ ["quantidade_de_casos"], (List.range rowsM.length).map Int.ofNat,
       climate.rows.map (fun r => r ++
         [astypeIntCell (fillnaScalar (Cell.num 0) (qLookup right (r.getD jD Cell.null)))])⟩ := by
    obtain ⟨mh, mi, mr⟩ := mapColumnAt_header
      ⟨Hr ++ ["quantidade_de_casos"], (List.range rowsM.length).map Int.ofNat, rowsM⟩
      "quantidade_de_casos" (fun c => astypeIntCell (fillnaScalar (Cell.num 0) c))
      (by simp)
    refine pydf_eq (by rw [mh]) (by rw [mi]) ?_
    rw [mr]
    simp only [colCells]
    rw [hjQ, List.map_map, replaceCol_map]
    rw [hrowsM, List.map_map]
    refine List.map_congr_left ?_
    intro r hr
    simp only [Function.comp]
    have hrlen : r.length = Hr.length := by rw [hHrlen]; exact hwfc r hr
    rw [← hrlen, getD_append_len, set_append_len]
  rw [hmerged]
  set filledRows := climate.rows.map (fun r => r ++
    [astypeIntCell (fillnaScalar (Cell.num 0) (qLookup right (r.getD jD Cell.null)))]) with hfR
  simp only
  have hlenM : rowsM.length = climate.rows.length := by rw [hrowsM]; simp
  have hlenF : filledRows.length = climate.rows.length := by rw [hfR]; simp
  have hperm0 : ((sortByDateIdx jD ((List.map Int.ofNat
      (List.range rowsM.length)).zip filledRows)).map Prod.snd).Perm filledRows := by
    have h1 : (sortByDateIdx jD ((List.map Int.ofNat
        (List.range rowsM.length)).zip filledRows)).Perm
        ((List.map Int.ofNat (List.range rowsM.length)).zip filledRows) :=
      List.perm_insertionSort _ _
    have h2 := h1.map Prod.snd
    rw [map_snd_zip_eq _ _ (by simp [hlenM, hlenF])] at h2
    exact h2
  have hB0 : ∀ r2 ∈ filledRows,
      climate.header.length < r2.length ∧ isDateCell (r2.getD jD Cell.null) = true ∧
      (right.filter (fun p => p.1 == r2.getD jD Cell.null) = [] →
        r2.getD climate.header.length Cell.null = Cell.num 0) := by
    intro r2 hm
    rw [hfR] at hm
    rcases List.mem_map.mp hm with ⟨r, hr, rfl⟩
    have hrlen := hwfc r hr
    refine ⟨by simp [hrlen], ?_, ?_⟩
    · rw [List.getD_append _ _ _ _ (hclen r hr)]
      exact hcells r hr
    · intro hnmatch
      rw [List.getD_append _ _ _ _ (hclen r hr)] at hnmatch
      have hql : qLookup right (r.getD jD Cell.null) = Cell.null := by
        simp only [qLookup, hnmatch]
      rw [← hrlen, getD_append_len, hql]
      simp [fillnaScalar, astypeIntCell]
  have hfcol : filledRows.map (fun r => r.getD jD Cell.null) =
      climate.rows.map (fun r => r.getD jD Cell.null) := by
    rw [hfR, List.map_map]
    refine List.map_congr_left ?_
    intro r hr
    simp only [Function.comp]
    exact List.getD_append _ _ _ _ (hclen r hr)
  have hinv0 : StageInv right jD climate.header.length climate.rows
      ⟨Hr ++ ["quantidade_de_casos"],
       (sortByDateIdx jD ((List.map Int.ofNat
         (List.range rowsM.length)).zip filledRows)).map Prod.fst,
       (sortByDateIdx jD ((List.map Int.ofNat
         (List.range rowsM.length)).zip filledRows)).map Prod.snd⟩ := by
    refine ⟨hsdHr, ?_, List.mem_append_left _ hdtHr, by simp, by simp, ?_, ?_, ?_⟩
    · simp only [List.length_append, List.length_singleton]
      omega
    · rw [hperm0.length_eq, hlenF]
    · intro k
      have hpc := (hperm0.map (fun r => r.getD jD Cell.null)).count_eq k
      rw [hpc, hfcol]
    · intro r2 hm
      exact hB0 r2 (hperm0.mem_iff.mp hm)
  have hn7Hr : "quantidade_de_casos_7dias" ∉ Hr := by
    rw [hHr]
    have := contains_map_rename_false climate.header _ (by simpa using h7) (by decide)
    simpa using this
  have hn14Hr : "quantidade_de_casos_14dias" ∉ Hr := by
    rw [hHr]
    have := contains_map_rename_false climate.header _ (by simpa using h14) (by decide)
    simpa using this
  have hn21Hr : "quantidade_de_casos_21dias" ∉ Hr := by
    rw [hHr]
    have := contains_map_rename_false climate.header _ (by simpa using h21) (by decide)
    simpa using this
  have hestHr : "estacao" ∉ Hr := by
    rw [hHr]
    have := contains_map_rename_false climate.header _ (by simpa using hest) (by decide)
    simpa using this
  obtain ⟨s7, hs7, hs7h, hinv1⟩ := shift_stage_inv right jD climate.header.length
    climate.rows _ 7 (by decide) hjDlt hne hinv0 (by
      rw [show ("quantidade_de_casos_" ++ toString (7:Int).natAbs ++ "dias") =
        "quantidade_de_casos_7dias" from rfl]
      simp only [List.mem_append, List.mem_singleton]
      push_neg
      exact ⟨hn7Hr, by decide⟩)
  rw [hs7]
  simp only
  obtain ⟨s14, hs14, hs14h, hinv2⟩ := shift_stage_inv right jD climate.header.length
    climate.rows s7 14 (by decide) hjDlt hne hinv1 (by
      rw [hs7h, show ("quantidade_de_casos_" ++ toString (14:Int).natAbs ++ "dias") =
        "quantidade_de_casos_14dias" from rfl]
      simp only [List.mem_append, List.mem_singleton]
      push_neg
      refine ⟨⟨hn14Hr, by decide⟩, by decide⟩)
  rw [hs14]
  simp only
  obtain ⟨s21, hs21, hs21h, hinv3⟩ := shift_stage_inv right jD climate.header.length
    climate.rows s14 21 (by decide) hjDlt hne hinv2 (by
      rw [hs14h, hs7h, show ("quantidade_de_casos_" ++ toString (21:Int).natAbs ++ "dias") =
        "quantidade_de_casos_21dias" from rfl]
      simp only [List.mem_append, List.mem_singleton]
      push_neg
      refine ⟨⟨⟨hn21Hr, by decide⟩, by decide⟩, by decide⟩)
  rw [hs21]
  simp only
  obtain ⟨se, hsea, hinv4⟩ := season_stage_inv right jD climate.header.length
    climate.rows s21 hjDlt hne hinv3 (by
      rw [hs21h, hs14h, hs7h]
      simp only [List.mem_append, List.mem_singleton]
      push_neg
      refine ⟨⟨⟨⟨hestHr, by decide⟩, by decide⟩, by decide⟩, by decide⟩)
  rw [hsea]
  simp only
  obtain ⟨hrl, hrc, hrz⟩ := round_stage_inv right jD climate.header.length
    climate.rows se hinv4
  exact ⟨roundNumericCols se, rfl, hrl, hrc, hrz⟩

/-- Witness for C4: a three-day climate frame joined against a single
case record, with a calendar gap and two unmatched days. -/
theorem combine_left_join_completeness_witness :
    ∃ out, combineTry climdfC4 casesdfC4 "X" = .ok out ∧
      out.rows.length = climdfC4.rows.length ∧
      (∀ k : Cell,
        (out.rows.map (fun r => r.getD (strIdx "date" climdfC4.header) Cell.null)).count k =
        (climdfC4.rows.map (fun r => r.getD (strIdx "date" climdfC4.header) Cell.null)).count k) ∧
      (∀ r ∈ out.rows,
        (mergeRightPairs (mapColumnAt casesdfC4 "dt_notific" coerceDatetimeCell) "X").filter
          (fun p => p.1 == r.getD (strIdx "date" climdfC4.header) Cell.null) = [] →
        r.getD climdfC4.header.length Cell.null = Cell.num 0) :=
  combine_left_join_completeness climdfC4 casesdfC4 "X"
    (by decide) (by decide) (by decide) (by decide) (by decide) (by decide)
    (by decide) (by decide) (by decide) (by decide) (by decide) (by decide)
    (by decide)
    (fun k => le_trans (List.length_filter_le _ _) (by decide))
